import Mathlib

/-!
# smart-document: the application-error taxonomy and the configuration loader

A shallow embedding of `common/errors/errors.go`, of the error path of
`apps/gateway/main.go` and of `common/config/config.go`, followed by the
properties proved about it.

Modelling conventions.

* `ErrorCode` is Go's `int`; it is embedded as `Int`, so every statement that
  ranges over all codes covers every machine integer.
* A value of Go's `error` interface is `GoError`: the nil interface, a
  `*AppError` (itself nil or pointing to an error object), or a value of some
  other dynamic type, identified by the text its `Error` method returns.
* A `*AppError` is `Option AppError`; a method with receiver `e *AppError` is
  embedded on the object the receiver points to, and a method that mutates the
  receiver and returns it is embedded as the function giving the receiver's
  new state.
* `map[string]any` is a finite map with one entry per key (`AList`), wrapped in
  `Option` for the nil map.
* The text written by `runtime.Stack` is a parameter of every constructor: it
  is produced by the Go runtime, not by this package.
-/

namespace SmartDocument

/-! ## Data model -/

/-- Go: `type ErrorCode int`. -/
abbrev ErrorCode := Int

/-- A Go const block is a list of ConstSpecs; in this block each one either
spells `iota + base` or omits its expression and repeats the previous one. -/
inductive ConstSpec
  | iotaPlus (base : Int)
  | implicit
  deriving DecidableEq, Repr

/-- Values a const block assigns: `iota` is the index of the ConstSpec in the
block (comments and blank lines do not count), and an omitted expression
repeats the last spelled one with the current `iota`. -/
def evalConstBlock : List ConstSpec → Nat → Int → List Int
  | [], _, _ => []
  | ConstSpec.iotaPlus b :: rest, iota, _ => ((iota : Int) + b) :: evalConstBlock rest (iota + 1) b
  | ConstSpec.implicit :: rest, iota, b => ((iota : Int) + b) :: evalConstBlock rest (iota + 1) b

/-- The const block of errors.go, lines 12-48, one entry per constant. -/
def errorCodeBlock : List ConstSpec :=
  [ ConstSpec.iotaPlus 1000, ConstSpec.implicit, ConstSpec.implicit, ConstSpec.implicit,
    ConstSpec.implicit, ConstSpec.implicit, ConstSpec.implicit, ConstSpec.implicit,
    ConstSpec.implicit,
    ConstSpec.iotaPlus 2000, ConstSpec.implicit, ConstSpec.implicit, ConstSpec.implicit,
    ConstSpec.implicit,
    ConstSpec.iotaPlus 3000, ConstSpec.implicit, ConstSpec.implicit, ConstSpec.implicit,
    ConstSpec.implicit,
    ConstSpec.iotaPlus 4000, ConstSpec.implicit, ConstSpec.implicit, ConstSpec.implicit,
    ConstSpec.iotaPlus 5000, ConstSpec.implicit, ConstSpec.implicit ]

-- General errors (`iota + 1000`, iota = 0 .. 8)
def ErrCodeInternal : ErrorCode := 0 + 1000
def ErrCodeBadRequest : ErrorCode := 1 + 1000
def ErrCodeUnauthorized : ErrorCode := 2 + 1000
def ErrCodeForbidden : ErrorCode := 3 + 1000
def ErrCodeNotFound : ErrorCode := 4 + 1000
def ErrCodeConflict : ErrorCode := 5 + 1000
def ErrCodeValidation : ErrorCode := 6 + 1000
def ErrCodeTimeout : ErrorCode := 7 + 1000
def ErrCodeRateLimit : ErrorCode := 8 + 1000

-- Authentication errors (`iota + 2000`, iota = 9 .. 13)
def ErrCodeInvalidCredentials : ErrorCode := 9 + 2000
def ErrCodeTokenExpired : ErrorCode := 10 + 2000
def ErrCodeTokenInvalid : ErrorCode := 11 + 2000
def ErrCodeUserNotFound : ErrorCode := 12 + 2000
def ErrCodeUserAlreadyExists : ErrorCode := 13 + 2000

-- Document errors (`iota + 3000`, iota = 14 .. 18)
def ErrCodeDocumentNotFound : ErrorCode := 14 + 3000
def ErrCodeDocumentAccessDenied : ErrorCode := 15 + 3000
def ErrCodeDocumentLocked : ErrorCode := 16 + 3000
def ErrCodeInvalidDocumentFormat : ErrorCode := 17 + 3000
def ErrCodeDocumentSizeExceeded : ErrorCode := 18 + 3000

-- Workspace errors (`iota + 4000`, iota = 19 .. 22)
def ErrCodeWorkspaceNotFound : ErrorCode := 19 + 4000
def ErrCodeWorkspaceAccessDenied : ErrorCode := 20 + 4000
def ErrCodeInvitationExpired : ErrorCode := 21 + 4000
def ErrCodeMaxMembersExceeded : ErrorCode := 22 + 4000

-- Collaboration errors (`iota + 5000`, iota = 23 .. 25)
def ErrCodeSessionNotFound : ErrorCode := 23 + 5000
def ErrCodeOperationConflict : ErrorCode := 24 + 5000
def ErrCodeConcurrentEdit : ErrorCode := 25 + 5000

/-- The general codes, in declaration order. -/
def generalCodes : List ErrorCode :=
  [ErrCodeInternal, ErrCodeBadRequest, ErrCodeUnauthorized, ErrCodeForbidden, ErrCodeNotFound,
   ErrCodeConflict, ErrCodeValidation, ErrCodeTimeout, ErrCodeRateLimit]

/-- The authentication codes, in declaration order. -/
def authenticationCodes : List ErrorCode :=
  [ErrCodeInvalidCredentials, ErrCodeTokenExpired, ErrCodeTokenInvalid, ErrCodeUserNotFound,
   ErrCodeUserAlreadyExists]

/-- The document codes, in declaration order. -/
def documentCodes : List ErrorCode :=
  [ErrCodeDocumentNotFound, ErrCodeDocumentAccessDenied, ErrCodeDocumentLocked,
   ErrCodeInvalidDocumentFormat, ErrCodeDocumentSizeExceeded]

/-- The workspace codes, in declaration order. -/
def workspaceCodes : List ErrorCode :=
  [ErrCodeWorkspaceNotFound, ErrCodeWorkspaceAccessDenied, ErrCodeInvitationExpired,
   ErrCodeMaxMembersExceeded]

/-- The collaboration codes, in declaration order. -/
def collaborationCodes : List ErrorCode :=
  [ErrCodeSessionNotFound, ErrCodeOperationConflict, ErrCodeConcurrentEdit]

/-- Every defined code, in declaration order. -/
def definedCodes : List ErrorCode :=
  generalCodes ++ authenticationCodes ++ documentCodes ++ workspaceCodes ++ collaborationCodes

/-- A value of Go's `any`, as far as the context map stores it: a few
representative dynamic types. No operation of the package inspects it. -/
inductive AnyValue
  | null
  | bool (b : Bool)
  | int (i : Int)
  | str (s : String)
  deriving DecidableEq, Repr

/-- Go: an allocated `map[string]any`, a finite map with one entry per key. -/
abbrev ContextMap := AList (fun _ : String => AnyValue)

/-- A value of Go's `error` interface over the error object type `A`: the nil
interface, a `*AppError` (nil pointer or a pointer to an object), or a value of
another dynamic type whose `Error` method returns `text`. -/
inductive GoErrorOf (A : Type)
  | nil
  | appError (p : Option A)
  | other (text : String)

/-- Go: `err != nil` on an interface value is false only for the nil interface. -/
def GoErrorOf.isNil {A : Type} : GoErrorOf A → Bool
  | GoErrorOf.nil => true
  | _ => false

/-- Go: `type AppError struct`. -/
structure AppError where
  Code : ErrorCode
  Message : String
  Details : String
  Internal : GoErrorOf AppError
  StackTrace : String
  Context : Option ContextMap

/-- Go: the `error` interface. -/
abbrev GoError := GoErrorOf AppError

/-! ## net/http status constants used by `HTTPStatus` -/

def StatusBadRequest : Int := 400
def StatusUnauthorized : Int := 401
def StatusForbidden : Int := 403
def StatusNotFound : Int := 404
def StatusRequestTimeout : Int := 408
def StatusConflict : Int := 409
def StatusTooManyRequests : Int := 429
def StatusInternalServerError : Int := 500

/-! ## Methods of `*AppError` -/

/-- The verb `%d` of fmt on an integer: its decimal digits, with a leading
minus sign when negative. -/
def formatD (n : Int) : String := toString n

mutual
/-- Go: `func (e *AppError) Error() string`. -/
def AppError.Error : AppError → String
  | ⟨code, message, _, internal, _, _⟩ =>
    if !internal.isNil then
      "[" ++ formatD code ++ "] " ++ message ++ ": " ++ formatV internal
    else
      "[" ++ formatD code ++ "] " ++ message
/-- The verb `%v` of fmt on an `error` operand: the text of its `Error` method;
fmt prints `<nil>` for a nil interface and also for a nil pointer whose method
panics on the nil receiver. -/
def formatV : GoError → String
  | GoErrorOf.nil => "<nil>"
  | GoErrorOf.appError none => "<nil>"
  | GoErrorOf.appError (some a) => a.Error
  | GoErrorOf.other text => text
end

/-- The result of the method call `err.Error()` on an interface value: `none`
when the call panics (nil interface, or nil `*AppError` receiver, which
dereferences `e.Internal`). -/
def GoErrorOf.errorText : GoError → Option String
  | GoErrorOf.nil => none
  | GoErrorOf.appError none => none
  | GoErrorOf.appError (some a) => some a.Error
  | GoErrorOf.other text => some text

/-- Go: `func (e *AppError) HTTPStatus() int`. -/
def AppError.HTTPStatus (e : AppError) : Int :=
  if e.Code = ErrCodeBadRequest ∨ e.Code = ErrCodeValidation ∨
      e.Code = ErrCodeInvalidDocumentFormat ∨ e.Code = ErrCodeDocumentSizeExceeded then
    StatusBadRequest
  else if e.Code = ErrCodeUnauthorized ∨ e.Code = ErrCodeInvalidCredentials ∨
      e.Code = ErrCodeTokenExpired ∨ e.Code = ErrCodeTokenInvalid then
    StatusUnauthorized
  else if e.Code = ErrCodeForbidden ∨ e.Code = ErrCodeDocumentAccessDenied ∨
      e.Code = ErrCodeWorkspaceAccessDenied then
    StatusForbidden
  else if e.Code = ErrCodeNotFound ∨ e.Code = ErrCodeUserNotFound ∨
      e.Code = ErrCodeDocumentNotFound ∨ e.Code = ErrCodeWorkspaceNotFound ∨
      e.Code = ErrCodeSessionNotFound then
    StatusNotFound
  else if e.Code = ErrCodeConflict ∨ e.Code = ErrCodeUserAlreadyExists ∨
      e.Code = ErrCodeDocumentLocked ∨ e.Code = ErrCodeOperationConflict ∨
      e.Code = ErrCodeConcurrentEdit then
    StatusConflict
  else if e.Code = ErrCodeTimeout then
    StatusRequestTimeout
  else if e.Code = ErrCodeRateLimit then
    StatusTooManyRequests
  else
    StatusInternalServerError

/-- Go: `func (e *AppError) WithContext(key string, value any) *AppError`.
The result is the receiver, in its state after the call. -/
def AppError.WithContext (e : AppError) (key : String) (value : AnyValue) : AppError :=
  let m : ContextMap :=
    match e.Context with
    | none => ∅
    | some m => m
  { e with Context := some (m.insert key value) }

/-- Go: `func (e *AppError) WithDetails(details string) *AppError`.
The result is the receiver, in its state after the call. -/
def AppError.WithDetails (e : AppError) (details : String) : AppError :=
  { e with Details := details }

/-- Go: `v, ok := e.Context[key]`; a nil map has no entry. -/
def AppError.contextLookup (e : AppError) (key : String) : Option AnyValue :=
  match e.Context with
  | none => none
  | some m => m.lookup key

/-- Go: `len(e.Context)`; a nil map has length 0. -/
def AppError.contextLen (e : AppError) : Nat :=
  match e.Context with
  | none => 0
  | some m => m.entries.length

/-- The keys of the context map, one per entry. -/
def AppError.contextKeys (e : AppError) : List String :=
  match e.Context with
  | none => []
  | some m => m.keys

/-! ## Stack capture -/

/-- Go: `strings.Contains(s, substr)`. -/
def stringsContains (s substr : String) : Bool :=
  s.data.tails.any (fun t => substr.data.isPrefixOf t)

/-- Go: `strings.Split(s, "\\n")` on the characters of `s`: the pieces between
the newlines, always at least one piece. -/
def splitNewline : List Char → List (List Char)
  | [] => [[]]
  | c :: cs =>
    if c = '\n' then [] :: splitNewline cs
    else
      match splitNewline cs with
      | [] => [[c]]
      | piece :: pieces => (c :: piece) :: pieces

/-- Go: `strings.Split(s, "\\n")`. -/
def stringsSplit (s : String) : List String :=
  (splitNewline s.data).map String.mk

/-- Go: `strings.Join(elems, "\\n")`. -/
def stringsJoin (elems : List String) : String :=
  "\n".intercalate elems

/-- The condition of the filter loop of `getStackTrace` on one line. -/
def keepLine (line : String) : Bool :=
  stringsContains line "smart-document" && !stringsContains line "errors.go"

/-- The filter loop of `getStackTrace` (errors.go, lines 129-137), by recursion
on the lines from index `i` on: a line that passes the condition is appended,
and so is the line after it when there is one (`i+1 < len(lines)`). -/
def filterLines : List String → List String
  | [] => []
  | line :: rest =>
    if keepLine line then
      line :: (rest.head?.toList ++ filterLines rest)
    else
      filterLines rest

/-- Go: `func getStackTrace() string`, given the text `stack` that the capture
loop leaves in `buf` (what `runtime.Stack` writes once the buffer is large
enough). -/
def getStackTrace (stack : String) : String :=
  stringsJoin (filterLines (stringsSplit stack))

/-! ## Constructors

Each takes the text `stack` of the goroutine's stack at the moment
`getStackTrace` runs. -/

/-- Go: `func New(code ErrorCode, message string) *AppError`. -/
def New (stack : String) (code : ErrorCode) (message : String) : AppError :=
  { Code := code
    Message := message
    Details := ""
    Internal := GoErrorOf.nil
    StackTrace := getStackTrace stack
    Context := none }

/-- Go: `func Wrap(err error, code ErrorCode, message string) *AppError`. -/
def Wrap (stack : String) (err : GoError) (code : ErrorCode) (message : String) : AppError :=
  { Code := code
    Message := message
    Details := ""
    Internal := err
    StackTrace := getStackTrace stack
    Context := none }

def BadRequest (stack : String) (message : String) : AppError :=
  New stack ErrCodeBadRequest message

def Unauthorized (stack : String) (message : String) : AppError :=
  New stack ErrCodeUnauthorized message

def Forbidden (stack : String) (message : String) : AppError :=
  New stack ErrCodeForbidden message

def NotFound (stack : String) (message : String) : AppError :=
  New stack ErrCodeNotFound message

def Conflict (stack : String) (message : String) : AppError :=
  New stack ErrCodeConflict message

def Internal (stack : String) (err : GoError) (message : String) : AppError :=
  Wrap stack err ErrCodeInternal message

def Validation (stack : String) (message : String) : AppError :=
  New stack ErrCodeValidation message

def InvalidCredentials (stack : String) : AppError :=
  New stack ErrCodeInvalidCredentials "Invalid credentials provided"

def TokenExpired (stack : String) : AppError :=
  New stack ErrCodeTokenExpired "Token has expired"

def TokenInvalid (stack : String) : AppError :=
  New stack ErrCodeTokenInvalid "Invalid token provided"

def UserNotFound (stack : String) : AppError :=
  New stack ErrCodeUserNotFound "User not found"

def UserAlreadyExists (stack : String) : AppError :=
  New stack ErrCodeUserAlreadyExists "User already exists"

def DocumentNotFound (stack : String) : AppError :=
  New stack ErrCodeDocumentNotFound "Document not found"

def DocumentAccessDenied (stack : String) : AppError :=
  New stack ErrCodeDocumentAccessDenied "Access denied to document"

def DocumentLocked (stack : String) : AppError :=
  New stack ErrCodeDocumentLocked "Document is locked for editing"

def WorkspaceNotFound (stack : String) : AppError :=
  New stack ErrCodeWorkspaceNotFound "Workspace not found"

def WorkspaceAccessDenied (stack : String) : AppError :=
  New stack ErrCodeWorkspaceAccessDenied "Access denied to workspace"

/-! ## Classification helpers -/

/-- Go: the type assertion `err.(*AppError)` in its two-value form: the pointer
held by the interface and `true` when the dynamic type is `*AppError`, the nil
pointer and `false` otherwise. -/
def assertAppError : GoError → Option AppError × Bool
  | GoErrorOf.appError p => (p, true)
  | _ => (none, false)

/-- Go: `func IsAppError(err error) bool`. -/
def IsAppError (err : GoError) : Bool :=
  (assertAppError err).2

/-- Go: `func GetAppError(err error) (*AppError, bool)`. -/
def GetAppError (err : GoError) : Option AppError × Bool :=
  assertAppError err

/-- Go: `func HasCode(err error, code ErrorCode) bool`; `none` is the panic of
reading `appErr.Code` through a nil pointer. -/
def HasCode (err : GoError) (code : ErrorCode) : Option Bool :=
  match GetAppError err with
  | (appErr, true) =>
    match appErr with
    | some a => some (decide (a.Code = code))
    | none => none
  | (_, false) => some false

/-! ## apps/gateway/main.go -/

/-- Go: `func simulateOperation() error` of main.go. -/
def simulateOperation (stack : String) : GoError :=
  GoErrorOf.appError (some
    ((((Validation stack "Invalid request format").WithContext "field" (AnyValue.str "email")).WithContext
      "value" (AnyValue.str "invalid-email")).WithDetails "Email format is not valid"))

/-! ## Specification vocabulary -/

/-- Two error objects agree on every field but `StackTrace`. -/
def AppError.sameUpToStackTrace (a b : AppError) : Prop :=
  a.Code = b.Code ∧ a.Message = b.Message ∧ a.Details = b.Details ∧
    a.Internal = b.Internal ∧ a.Context = b.Context

/-- One enrichment call on an error object. -/
inductive Enrichment
  | withContext (key : String) (value : AnyValue)
  | withDetails (details : String)

/-- The receiver after one enrichment call. -/
def Enrichment.applyTo (e : AppError) : Enrichment → AppError
  | Enrichment.withContext key value => e.WithContext key value
  | Enrichment.withDetails details => e.WithDetails details

/-- The receiver after a chain of enrichment calls, first call first. -/
def enrich (e : AppError) (calls : List Enrichment) : AppError :=
  calls.foldl Enrichment.applyTo e

/-- One frame of a stack text: its function line and its source-position line. -/
structure Frame where
  functionLine : String
  positionLine : String

/-- The lines of a stack text made of a header line and frames. -/
def stackLines (header : String) (frames : List Frame) : List String :=
  header :: frames.flatMap (fun f => [f.functionLine, f.positionLine])

/-- The frame's source file is errors.go. -/
def Frame.inErrorsGo (f : Frame) : Bool :=
  stringsContains f.positionLine "errors.go"

/-- The line filter drops the frames of errors.go from the stack text made of
`header` and `frames`: neither line of such a frame is in the result. -/
def dropsHelperFrames (header : String) (frames : List Frame) : Prop :=
  ∀ f ∈ frames, f.inErrorsGo = true →
    f.functionLine ∉ filterLines (stackLines header frames) ∧
    f.positionLine ∉ filterLines (stackLines header frames)

/-- A stack text as the Go runtime prints it when `simulateOperation` builds its
error: header, then the frames of getStackTrace, New, Validation,
simulateOperation and main. -/
def sampleFrames : List Frame :=
  [ { functionLine := "github.com/tienhung-ho/smart-document/common/errors.getStackTrace()"
      positionLine := "\t/src/smart-document/common/errors/errors.go:120 +0x5b" },
    { functionLine := "github.com/tienhung-ho/smart-document/common/errors.New(...)"
      positionLine := "\t/src/smart-document/common/errors/errors.go:104" },
    { functionLine := "github.com/tienhung-ho/smart-document/common/errors.Validation(...)"
      positionLine := "\t/src/smart-document/common/errors/errors.go:167" },
    { functionLine := "main.simulateOperation()"
      positionLine := "\t/src/smart-document/apps/gateway/main.go:60 +0x25" },
    { functionLine := "main.main()"
      positionLine := "\t/src/smart-document/apps/gateway/main.go:39 +0x1a5" } ]

/-- The header line of the sample stack text. -/
def sampleHeader : String := "goroutine 1 [running]:"

/-- The sample stack text as `runtime.Stack` writes it: the lines, each ended
by a newline. -/
def sampleStack : String :=
  stringsJoin (stackLines sampleHeader sampleFrames) ++ "\n"

/-! ## common/config: configuration loading

`LoadConfig` drives the viper library. The library is embedded as far as
`LoadConfig` uses it: a `Viper` holds defaults, the settings of the config file
it read, and its environment-variable options, and looks a key up in the order
environment variable, config file, default, giving no value to a nested key
that a parent path shadows.

A config file is taken by its parsed content: the list of its leaves (scalars
and lists), each by its full dotted key in lower case. `Unmarshal` is embedded
for files that fit the shape of `Config` (`fitsSchema`: no leaf where `Config`
has a nested struct, no nested map where `Config` has a leaf); of the files
that do not fit, only the error on a leaf at the path of a nested struct is
embedded, and the properties of `LoadConfig` are stated for files that fit.

The decoding of a raw setting into a field of the `Config` struct
(mapstructure), given the value the field holds, is a parameter `decode`. -/

/-- A value viper holds for a key; `table` is a nested map, the value of an
inner node of a settings tree. -/
inductive Setting
  | str (s : String)
  | int (i : Int)
  | bool (b : Bool)
  | strs (l : List String)
  | table
  deriving DecidableEq, Repr

/-- The leaves of the settings of one source, by full dotted key; the first
entry of a key counts. -/
abbrev Settings := List (String × Setting)

/-- What reading the config file of a given name in a given directory yields. -/
inductive FileRead
  | notFound
  | malformed (cause : String)
  | parsed (settings : Settings)

/-- The surroundings of the process: `os.LookupEnv`, and the config file of
each directory and config name. -/
structure Runtime where
  lookupEnv : String → Option String
  readFile : String → String → FileRead

/-- The Go type of a leaf field of `Config`. -/
inductive FieldKind
  | string
  | int
  | bool
  | stringSlice
  deriving DecidableEq, Repr

/-- The leaf fields of Go's `type Config struct` (config.go, lines 11-80), each
by the path of its mapstructure tags, with its type. -/
def configFields : List (String × FieldKind) :=
  [ ("environment", FieldKind.string),
    ("server.host", FieldKind.string),
    ("server.port", FieldKind.int),
    ("server.read_timeout", FieldKind.int),
    ("server.write_timeout", FieldKind.int),
    ("database.driver", FieldKind.string),
    ("database.host", FieldKind.string),
    ("database.port", FieldKind.int),
    ("database.username", FieldKind.string),
    ("database.password", FieldKind.string),
    ("database.database", FieldKind.string),
    ("database.ssl_mode", FieldKind.string),
    ("database.max_idle", FieldKind.int),
    ("database.max_open", FieldKind.int),
    ("redis.host", FieldKind.string),
    ("redis.port", FieldKind.int),
    ("redis.password", FieldKind.string),
    ("redis.database", FieldKind.int),
    ("kafka.brokers", FieldKind.stringSlice),
    ("kafka.group_id", FieldKind.string),
    ("jwt.secret", FieldKind.string),
    ("jwt.expires_in", FieldKind.int),
    ("logging.level", FieldKind.string),
    ("logging.format", FieldKind.string),
    ("logging.output", FieldKind.string),
    ("logging.max_size", FieldKind.int),
    ("logging.max_backups", FieldKind.int),
    ("logging.max_age", FieldKind.int),
    ("logging.compress", FieldKind.bool),
    ("storage.type", FieldKind.string),
    ("storage.minio.endpoint", FieldKind.string),
    ("storage.minio.access_key_id", FieldKind.string),
    ("storage.minio.secret_access_key", FieldKind.string),
    ("storage.minio.use_ssl", FieldKind.bool),
    ("storage.minio.bucket_name", FieldKind.string),
    ("storage.local_path", FieldKind.string) ]

/-- The zero value of a field type. -/
def zeroValue : FieldKind → Setting
  | FieldKind.string => Setting.str ""
  | FieldKind.int => Setting.int 0
  | FieldKind.bool => Setting.bool false
  | FieldKind.stringSlice => Setting.strs []

/-- A value of Go's `Config` struct: the value of each leaf field, by its path;
`none` at a path that is not a field. -/
abbrev Config := String → Option Setting

/-- Go: `var config Config`, every field at its zero value. -/
def zeroConfig : Config :=
  fun key => (configFields.lookup key).map zeroValue

/-- The decoding of a raw setting into a field of the given type that holds
the given value; `none` when the setting cannot be decoded. -/
abbrev Decoder := FieldKind → Option Setting → Setting → Option Setting

/-- Go: `strings.Split(key, ".")`, on the characters of the key. -/
def splitDots : List Char → List (List Char)
  | [] => [[]]
  | c :: cs =>
    if c = '.' then [] :: splitDots cs
    else
      match splitDots cs with
      | [] => [[c]]
      | piece :: pieces => (c :: piece) :: pieces

/-- The path of a key: its parts between the dots. -/
def keyPath (key : String) : List String :=
  (splitDots key.data).map String.mk

/-- The proper parent paths of a key, shortest first: Go's
`strings.Join(path[0:i], ".")` for `0 < i < len(path)`. -/
def parentKeys (key : String) : List String :=
  (List.range ((keyPath key).length - 1)).map
    (fun i => ".".intercalate ((keyPath key).take (i + 1)))

/-- The search of viper in the nested map of one source (`searchMap`), on its
leaves: the leaf at the key, or a table when the key is an inner node. -/
def searchSettings (s : Settings) (key : String) : Option Setting :=
  match s.lookup key with
  | some val => some val
  | none => if s.any (fun entry => decide (key ∈ parentKeys entry.1)) then some Setting.table else none

/-- The test `isPathShadowedInDeepMap(path, m) != ""` of viper, on the leaves
of the source: a proper parent path of the key holds a leaf. -/
def shadowedInSettings (s : Settings) (key : String) : Bool :=
  (parentKeys key).any (fun parent => (s.lookup parent).isSome)

/-- The state of a `*viper.Viper`, as far as `LoadConfig` uses it. -/
structure Viper where
  defaults : Settings
  config : Settings
  configName : String
  configType : String
  configPaths : List String
  automaticEnvApplied : Bool
  envPrefix : String
  envKeyReplacer : Option (Char × Char)

/-- Go: `viper.New()`. -/
def Viper.New : Viper :=
  { defaults := []
    config := []
    configName := "config"
    configType := ""
    configPaths := []
    automaticEnvApplied := false
    envPrefix := ""
    envKeyReplacer := none }

/-- Go: `v.SetDefault(key, value)`. -/
def Viper.SetDefault (v : Viper) (key : String) (value : Setting) : Viper :=
  { v with defaults := (key, value) :: v.defaults }

/-- Go: `v.SetConfigName(name)`. -/
def Viper.SetConfigName (v : Viper) (name : String) : Viper :=
  { v with configName := name }

/-- Go: `v.SetConfigType(kind)`. -/
def Viper.SetConfigType (v : Viper) (kind : String) : Viper :=
  { v with configType := kind }

/-- Go: `v.AddConfigPath(dir)`: an empty path is ignored; the directories are
searched in the order added (viper also skips a directory it already has,
which does not change what a first-match search finds). -/
def Viper.AddConfigPath (v : Viper) (dir : String) : Viper :=
  if dir ≠ "" then { v with configPaths := v.configPaths ++ [dir] } else v

/-- Go: `v.AutomaticEnv()`. -/
def Viper.AutomaticEnv (v : Viper) : Viper :=
  { v with automaticEnvApplied := true }

/-- Go: `v.SetEnvPrefix(prefix)`. -/
def Viper.SetEnvPrefix (v : Viper) (envPrefix : String) : Viper :=
  { v with envPrefix := envPrefix }

/-- Go: `v.SetEnvKeyReplacer(strings.NewReplacer(old, new))` for a replacer of
one pair of single characters. -/
def Viper.SetEnvKeyReplacer (v : Viper) (old new : Char) : Viper :=
  { v with envKeyReplacer := some (old, new) }

/-- Go: `strings.ToUpper(s)` on the letters a-z. -/
def stringsToUpper (s : String) : String :=
  String.mk (s.data.map Char.toUpper)

/-- Go: `replacer.Replace(s)` for a replacer of one pair of single characters. -/
def replaceChar (old new : Char) (s : String) : String :=
  String.mk (s.data.map (fun c => if c = old then new else c))

/-- The name viper gives the environment variable of a key: the prefix and an
underscore before the key, in upper case. -/
def Viper.mergeWithEnvPrefix (v : Viper) (key : String) : String :=
  if v.envPrefix ≠ "" then stringsToUpper (v.envPrefix ++ "_" ++ key)
  else stringsToUpper key

/-- The environment lookup of viper: the key replacer is applied to the name,
and a variable that is unset or empty counts as absent. -/
def Viper.getEnv (rt : Runtime) (v : Viper) (name : String) : Option String :=
  let name :=
    match v.envKeyReplacer with
    | some (old, new) => replaceChar old new name
    | none => name
  match rt.lookupEnv name with
  | some val => if val ≠ "" then some val else none
  | none => none

/-- The test `isPathShadowedInAutoEnv(path) != ""` of viper: a proper parent
path of the key has a value in the environment. -/
def Viper.isPathShadowedInAutoEnv (rt : Runtime) (v : Viper) (key : String) : Bool :=
  (parentKeys key).any (fun parent => (v.getEnv rt (v.mergeWithEnvPrefix parent)).isSome)

/-- The lookup of a key by viper (`find`), over the sources `LoadConfig` uses,
in their order of precedence: the environment variable of the key (under
`AutomaticEnv`), the config file, the defaults. After each source that has no
value for a nested key, the lookup ends without a value when a parent path of
the key is shadowed in that source. -/
def Viper.find (rt : Runtime) (v : Viper) (key : String) : Option Setting :=
  let nested : Bool := decide (1 < (keyPath key).length)
  let fromEnv : Option String :=
    if v.automaticEnvApplied then v.getEnv rt (v.mergeWithEnvPrefix key) else none
  match fromEnv with
  | some val => some (Setting.str val)
  | none =>
    if v.automaticEnvApplied && (nested && v.isPathShadowedInAutoEnv rt key) then none
    else
      match searchSettings v.config key with
      | some val => some val
      | none =>
        if nested && shadowedInSettings v.config key then none
        else
          match searchSettings v.defaults key with
          | some val => some val
          | none => none

/-- The conversion of a looked-up value to a string, as `GetString` does. -/
def castToString : Option Setting → String
  | some (Setting.str s) => s
  | some (Setting.int i) => toString i
  | some (Setting.bool b) => if b then "true" else "false"
  | some (Setting.strs _) => ""
  | some Setting.table => ""
  | none => ""

/-- Go: `v.GetString(key)`. -/
def Viper.GetString (rt : Runtime) (v : Viper) (key : String) : String :=
  castToString (v.find rt key)

/-- The search of the directories, in order, for the config file `name`: the
first directory that has the file decides. -/
def searchConfigPaths (rt : Runtime) (name : String) : List String → FileRead
  | [] => FileRead.notFound
  | dir :: rest =>
    match rt.readFile dir name with
    | FileRead.notFound => searchConfigPaths rt name rest
    | found => found

/-- The errors of `ReadInConfig`: `viper.ConfigFileNotFoundError`, or another one. -/
inductive ReadError
  | configFileNotFound
  | other (cause : String)

/-- Go: `v.ReadInConfig()`. -/
def Viper.ReadInConfig (rt : Runtime) (v : Viper) : Except ReadError Viper :=
  match searchConfigPaths rt v.configName v.configPaths with
  | FileRead.notFound => Except.error ReadError.configFileNotFound
  | FileRead.malformed cause => Except.error (ReadError.other cause)
  | FileRead.parsed settings => Except.ok { v with config := settings }

/-- Go: `v.AllKeys()`: the keys of the config file, and the keys of the
defaults that no leaf of the config file shadows. -/
def Viper.AllKeys (v : Viper) : List String :=
  v.config.map Prod.fst ++
    (v.defaults.map Prod.fst).filter (fun key => !shadowedInSettings v.config key)

/-- The value `AllSettings` holds for a key: what `find` gives for a key viper
knows of. -/
def Viper.setting (rt : Runtime) (v : Viper) (key : String) : Option Setting :=
  if key ∈ v.AllKeys then v.find rt key else none

/-- The paths of `Config` that hold a nested struct. -/
def sectionPaths : List String :=
  ["server", "database", "redis", "kafka", "jwt", "logging", "storage", "storage.minio"]

/-- Go: `v.Unmarshal(&config)`: every field whose key has a setting is set to
the setting decoded over the value it holds, every other field keeps its value;
an error when a nested struct of `Config` is given a leaf, or when a setting
cannot be decoded. -/
def Viper.Unmarshal (rt : Runtime) (decode : Decoder) (v : Viper) (into : Config) :
    Except String Config :=
  if sectionPaths.any (fun path => (v.setting rt path).isSome) then
    Except.error "expected a map"
  else if configFields.all (fun field =>
      match v.setting rt field.1 with
      | none => true
      | some raw => (decode field.2 (into field.1) raw).isSome) then
    Except.ok (fun key =>
      match configFields.lookup key with
      | none => into key
      | some kind =>
        match v.setting rt key with
        | none => into key
        | some raw => decode kind (into key) raw)
  else
    Except.error "cannot decode"

/-- Go: `strings.TrimSuffix(s, suffix)`. -/
def stringsTrimSuffix (s suffix : String) : String :=
  if suffix.data.isSuffixOf s.data then
    String.mk (s.data.take (s.data.length - suffix.data.length))
  else s

/-- Go: `func setDefaults(v *viper.Viper)`. -/
def setDefaults (v : Viper) : Viper :=
  let v := v.SetDefault "environment" (Setting.str "development")
  let v := v.SetDefault "server.host" (Setting.str "0.0.0.0")
  let v := v.SetDefault "server.port" (Setting.int 8080)
  let v := v.SetDefault "server.read_timeout" (Setting.int 30)
  let v := v.SetDefault "server.write_timeout" (Setting.int 30)
  let v := v.SetDefault "database.driver" (Setting.str "postgres")
  let v := v.SetDefault "database.host" (Setting.str "localhost")
  let v := v.SetDefault "database.port" (Setting.int 5432)
  let v := v.SetDefault "database.username" (Setting.str "postgres")
  let v := v.SetDefault "database.password" (Setting.str "postgres")
  let v := v.SetDefault "database.database" (Setting.str "smart_document")
  let v := v.SetDefault "database.ssl_mode" (Setting.str "disable")
  let v := v.SetDefault "database.max_idle" (Setting.int 10)
  let v := v.SetDefault "database.max_open" (Setting.int 100)
  let v := v.SetDefault "redis.host" (Setting.str "localhost")
  let v := v.SetDefault "redis.port" (Setting.int 6379)
  let v := v.SetDefault "redis.password" (Setting.str "")
  let v := v.SetDefault "redis.database" (Setting.int 0)
  let v := v.SetDefault "kafka.brokers" (Setting.strs ["localhost:9092"])
  let v := v.SetDefault "kafka.group_id" (Setting.str "smart-document")
  let v := v.SetDefault "jwt.secret" (Setting.str "your-secret-key")
  let v := v.SetDefault "jwt.expires_in" (Setting.int 3600)
  let v := v.SetDefault "logging.level" (Setting.str "info")
  let v := v.SetDefault "logging.format" (Setting.str "json")
  let v := v.SetDefault "logging.output" (Setting.str "stdout")
  let v := v.SetDefault "logging.max_size" (Setting.int 100)
  let v := v.SetDefault "logging.max_backups" (Setting.int 3)
  let v := v.SetDefault "logging.max_age" (Setting.int 28)
  let v := v.SetDefault "logging.compress" (Setting.bool true)
  let v := v.SetDefault "storage.type" (Setting.str "minio")
  let v := v.SetDefault "storage.minio.endpoint" (Setting.str "localhost:9000")
  let v := v.SetDefault "storage.minio.access_key_id" (Setting.str "minioadmin")
  let v := v.SetDefault "storage.minio.secret_access_key" (Setting.str "minioadmin")
  let v := v.SetDefault "storage.minio.use_ssl" (Setting.bool false)
  let v := v.SetDefault "storage.minio.bucket_name" (Setting.str "documents")
  let v := v.SetDefault "storage.local_path" (Setting.str "./uploads")
  v

/-- Go: `func loadEnvironmentSpecific(v *viper.Viper, config *Config) error`;
the result is the error, or `config` in its state after the call. -/
def loadEnvironmentSpecific (rt : Runtime) (decode : Decoder) (v : Viper) (config : Config) :
    Except String Config :=
  let environment := v.GetString rt "environment"
  let envFile := "config-" ++ environment ++ ".yaml"
  let envViper := Viper.New
  let envViper := envViper.SetConfigName (stringsTrimSuffix envFile ".yaml")
  let envViper := envViper.SetConfigType "yaml"
  let envViper := envViper.AddConfigPath "./etc"
  let envViper := envViper.AddConfigPath "../etc"
  let envViper := envViper.AddConfigPath "../../etc"
  match envViper.ReadInConfig rt with
  | Except.error ReadError.configFileNotFound => Except.ok config
  | Except.error (ReadError.other cause) =>
    Except.error ("failed to read environment config file: " ++ cause)
  | Except.ok envViper =>
    match envViper.Unmarshal rt decode config with
    | Except.error cause => Except.error ("failed to unmarshal environment config: " ++ cause)
    | Except.ok config => Except.ok config

/-- The configured viper of `LoadConfig` (config.go, lines 83-99), before the
config file is read. -/
def configuredViper (configPath serviceName : String) : Viper :=
  let v := Viper.New
  let v := setDefaults v
  let v := v.SetConfigName serviceName
  let v := v.SetConfigType "yaml"
  let v := v.AddConfigPath configPath
  let v := v.AddConfigPath "./etc"
  let v := v.AddConfigPath "../etc"
  let v := v.AddConfigPath "../../etc"
  let v := v.AutomaticEnv
  let v := v.SetEnvPrefix "SD"
  let v := v.SetEnvKeyReplacer '.' '_'
  v

/-- The viper of `LoadConfig` after `ReadInConfig` (config.go, lines 102-107):
an error other than a missing file ends `LoadConfig`. -/
def readServiceConfig (rt : Runtime) (configPath serviceName : String) : Except String Viper :=
  let v := configuredViper configPath serviceName
  match v.ReadInConfig rt with
  | Except.error ReadError.configFileNotFound => Except.ok v
  | Except.error (ReadError.other cause) =>
    Except.error ("failed to read config file: " ++ cause)
  | Except.ok v => Except.ok v

/-- Go: `func LoadConfig(configPath string, serviceName string) (*Config, error)`. -/
def LoadConfig (rt : Runtime) (decode : Decoder) (configPath serviceName : String) :
    Except String Config :=
  let v := Viper.New
  let v := setDefaults v
  let v := v.SetConfigName serviceName
  let v := v.SetConfigType "yaml"
  let v := v.AddConfigPath configPath
  let v := v.AddConfigPath "./etc"
  let v := v.AddConfigPath "../etc"
  let v := v.AddConfigPath "../../etc"
  let v := v.AutomaticEnv
  let v := v.SetEnvPrefix "SD"
  let v := v.SetEnvKeyReplacer '.' '_'
  let afterRead : Except String Viper :=
    match v.ReadInConfig rt with
    | Except.error ReadError.configFileNotFound => Except.ok v
    | Except.error (ReadError.other cause) =>
      Except.error ("failed to read config file: " ++ cause)
    | Except.ok v => Except.ok v
  match afterRead with
  | Except.error cause => Except.error cause
  | Except.ok v =>
    match v.Unmarshal rt decode zeroConfig with
    | Except.error cause => Except.error ("failed to unmarshal config: " ++ cause)
    | Except.ok config =>
      match loadEnvironmentSpecific rt decode v config with
      | Except.error cause =>
        Except.error ("failed to load environment-specific config: " ++ cause)
      | Except.ok config => Except.ok config

/-- The field of the returned `Config` at a path; `none` when `LoadConfig`
returned an error (or the path is no field). -/
def loadedField (result : Except String Config) (key : String) : Option Setting :=
  match result with
  | Except.ok config => config key
  | Except.error _ => none

/-! ### The layers of the configuration, in the words of the specification -/

/-- The first defined value of a list of layers, highest precedence first. -/
def firstDefined : List (Option Setting) → Option Setting
  | [] => none
  | some value :: _ => some value
  | none :: rest => firstDefined rest

/-- Layer: the built-in defaults. -/
def defaultsLayer (key : String) : Option Setting :=
  (setDefaults Viper.New).defaults.lookup key

/-- The directories searched for the service file: the caller's directory
(when not empty), then ./etc, ../etc, ../../etc. -/
def serviceSearchPath (configPath : String) : List String :=
  (if configPath ≠ "" then [configPath] else []) ++ ["./etc", "../etc", "../../etc"]

/-- The file of the service name, from the first directory of the search path
that has it. -/
def serviceFile (rt : Runtime) (configPath serviceName : String) : FileRead :=
  searchConfigPaths rt serviceName (serviceSearchPath configPath)

/-- Layer: the file of the service name. -/
def serviceFileLayer (rt : Runtime) (configPath serviceName key : String) : Option Setting :=
  match serviceFile rt configPath serviceName with
  | FileRead.parsed settings => settings.lookup key
  | _ => none

/-- The environment variable of a key: the prefix `SD_`, upper case, and `_`
for `.`. -/
def envVarName (key : String) : String :=
  replaceChar '.' '_' (stringsToUpper ("SD_" ++ key))

/-- The value of the environment variable of a key; an unset or empty variable
defines nothing. -/
def envVarValue (rt : Runtime) (key : String) : Option String :=
  match rt.lookupEnv (envVarName key) with
  | some val => if val ≠ "" then some val else none
  | none => none

/-- Layer: the environment variables with the prefix `SD_`, whose values are
strings. -/
def envVarLayer (rt : Runtime) (key : String) : Option Setting :=
  (envVarValue rt key).map Setting.str

/-- A parent path of the key has a non-empty `SD_` variable (SD_SERVER for
server.port). -/
def envShadowed (rt : Runtime) (key : String) : Bool :=
  (parentKeys key).any (fun parent => (envVarLayer rt parent).isSome)

/-- The setting of a key below the environment file: the environment variable
of the key; without one, nothing when a parent path has a variable, and else the
service file over the defaults. -/
def lowerSetting (rt : Runtime) (configPath serviceName key : String) : Option Setting :=
  firstDefined
    [envVarLayer rt key,
     if envShadowed rt key then none
     else firstDefined [serviceFileLayer rt configPath serviceName key, defaultsLayer key]]

/-- The environment name that selects the environment file: the setting
`environment` of the environment variables, the service file and the defaults. -/
def environmentName (rt : Runtime) (configPath serviceName : String) : String :=
  castToString (lowerSetting rt configPath serviceName "environment")

/-- The file `config-<environment>.yaml`, from the first of the directories
./etc, ../etc, ../../etc that has it. -/
def environmentFile (rt : Runtime) (configPath serviceName : String) : FileRead :=
  searchConfigPaths rt ("config-" ++ environmentName rt configPath serviceName)
    ["./etc", "../etc", "../../etc"]

/-- Layer: the file `config-<environment>.yaml`. -/
def environmentFileLayer (rt : Runtime) (configPath serviceName key : String) :
    Option Setting :=
  match environmentFile rt configPath serviceName with
  | FileRead.parsed settings => settings.lookup key
  | _ => none

/-- The settings fit the shape of `Config`: no key lies properly above a field
(a leaf where `Config` has a section) or properly below one (a section where
`Config` has a leaf). -/
def fitsSchema (settings : Settings) : Bool :=
  settings.all (fun entry =>
    configFields.all (fun field =>
      !decide (entry.1 ∈ parentKeys field.1) && !decide (field.1 ∈ parentKeys entry.1)))

/-- A file that was read fits the shape of `Config`. -/
def fileFits : FileRead → Bool
  | FileRead.parsed settings => fitsSchema settings
  | _ => true

/-- The two files `LoadConfig` reads fit the shape of `Config`. -/
def readFilesFit (rt : Runtime) (configPath serviceName : String) : Bool :=
  fileFits (serviceFile rt configPath serviceName) &&
    fileFits (environmentFile rt configPath serviceName)

/-- The value the layers below the environment file give a field: their
setting decoded over the zero value, or the zero value when they have none. -/
def lowerValue (decode : Decoder) (rt : Runtime) (configPath serviceName key : String)
    (kind : FieldKind) : Option Setting :=
  match lowerSetting rt configPath serviceName key with
  | some raw => decode kind (some (zeroValue kind)) raw
  | none => some (zeroValue kind)

/-- The value of a field in the order of the code: the setting of the
environment file decoded over the value of the lower layers, or that value
when the file does not define the key. -/
def loadedValue (decode : Decoder) (rt : Runtime) (configPath serviceName key : String)
    (kind : FieldKind) : Option Setting :=
  match environmentFileLayer rt configPath serviceName key with
  | some raw => decode kind (lowerValue decode rt configPath serviceName key kind) raw
  | none => lowerValue decode rt configPath serviceName key kind

/-- The setting of a key in the order of the specification: environment
variables over the environment file over the service file over the defaults. -/
def claimedSetting (rt : Runtime) (configPath serviceName key : String) : Option Setting :=
  firstDefined
    [envVarLayer rt key, environmentFileLayer rt configPath serviceName key,
     serviceFileLayer rt configPath serviceName key, defaultsLayer key]

/-! ### Sample runs -/

/-- The value of a decimal digit. -/
def digitValue (c : Char) : Option Nat :=
  if '0' ≤ c ∧ c ≤ '9' then some (c.toNat - '0'.toNat) else none

/-- The number written by decimal digits, after the digits read so far. -/
def parseDigits : List Char → Nat → Option Nat
  | [], acc => some acc
  | c :: cs, acc =>
    match digitValue c with
    | some d => parseDigits cs (10 * acc + d)
    | none => none

/-- A decoder for the sample runs: a value of the field's own type is kept, and
a string of decimal digits decodes into an int field; nothing else decodes. The
value the field holds is not used. -/
def sampleDecode : Decoder
  | FieldKind.string, _, Setting.str s => some (Setting.str s)
  | FieldKind.int, _, Setting.int i => some (Setting.int i)
  | FieldKind.int, _, Setting.str s =>
    match s.data with
    | [] => none
    | cs => (parseDigits cs 0).map (fun n => Setting.int (n : Int))
  | FieldKind.bool, _, Setting.bool b => some (Setting.bool b)
  | FieldKind.stringSlice, _, Setting.strs l => some (Setting.strs l)
  | _, _, _ => none

/-- A sample run of the gateway: ./etc/gateway.yaml sets the server host and
port, ./etc/config-development.yaml sets the port to 9090, and the environment
variable SD_SERVER_PORT is 7070. -/
def sampleRuntime : Runtime :=
  { lookupEnv := fun name => if name = "SD_SERVER_PORT" then some "7070" else none
    readFile := fun dir name =>
      if dir = "./etc" ∧ name = "gateway" then
        FileRead.parsed [("server.host", Setting.str "127.0.0.1"), ("server.port", Setting.int 8000)]
      else if dir = "./etc" ∧ name = "config-development" then
        FileRead.parsed [("server.port", Setting.int 9090)]
      else FileRead.notFound }

/-- A sample run with a variable on a parent path: no config file, and the
environment variables SD_SERVER and SD_SERVER_HOST are set. -/
def shadowRuntime : Runtime :=
  { lookupEnv := fun name =>
      if name = "SD_SERVER" then some "x"
      else if name = "SD_SERVER_HOST" then some "10.0.0.1"
      else none
    readFile := fun _ _ => FileRead.notFound }

/-! ## Shared lemmas -/

theorem error_unfold (e : AppError) :
    e.Error =
      if !e.Internal.isNil then
        "[" ++ formatD e.Code ++ "] " ++ e.Message ++ ": " ++ formatV e.Internal
      else
        "[" ++ formatD e.Code ++ "] " ++ e.Message := by
  cases e
  simp [AppError.Error]

theorem withContext_context (e : AppError) (k : String) (v : AnyValue) :
    (e.WithContext k v).Context = some ((e.Context.getD ∅).insert k v) := by
  cases e with
  | mk c m d i s ctx => cases ctx <;> rfl

theorem contextLookup_eq (e : AppError) (j : String) :
    e.contextLookup j = (e.Context.getD ∅).lookup j := by
  cases e with
  | mk c m d i s ctx => cases ctx <;> rfl

theorem contextLookup_withContext (e : AppError) (k j : String) (v : AnyValue) :
    (e.WithContext k v).contextLookup j = if j = k then some v else e.contextLookup j := by
  rw [contextLookup_eq, contextLookup_eq, withContext_context, Option.getD_some]
  by_cases h : j = k
  · subst h
    rw [AList.lookup_insert, if_pos rfl]
  · rw [AList.lookup_insert_ne h, if_neg h]

theorem contextLen_withContext (e : AppError) (k : String) (v : AnyValue) :
    (e.WithContext k v).contextLen = ((e.Context.getD ∅).entries.kerase k).length + 1 := by
  unfold AppError.contextLen
  rw [withContext_context]
  simp [AList.insert_entries]

theorem contextKeys_withContext (e : AppError) (k : String) (v : AnyValue) :
    (e.WithContext k v).contextKeys = k :: (e.Context.getD ∅).keys.erase k := by
  unfold AppError.contextKeys
  rw [withContext_context]
  simp [AList.keys_insert]

theorem contextKeys_nodup (e : AppError) : e.contextKeys.Nodup := by
  cases e with
  | mk c m d i s ctx =>
    cases ctx with
    | none => exact List.nodup_nil
    | some mp => exact mp.keys_nodup

theorem withContext_twice_context (e : AppError) (k : String) (v w : AnyValue) :
    ((e.WithContext k v).WithContext k w).Context = (e.WithContext k w).Context := by
  rw [withContext_context, withContext_context, withContext_context, Option.getD_some,
    AList.insert_insert]

theorem enrich_fields (calls : List Enrichment) (e : AppError) :
    (enrich e calls).Code = e.Code ∧ (enrich e calls).Message = e.Message ∧
      (enrich e calls).Internal = e.Internal ∧ (enrich e calls).StackTrace = e.StackTrace := by
  induction calls generalizing e with
  | nil => exact ⟨rfl, rfl, rfl, rfl⟩
  | cons call rest ih =>
    have h := ih (Enrichment.applyTo e call)
    cases call <;> exact h

/-! ## Properties -/

/-- C1: for every AppError, whatever integer its Code is, HTTPStatus returns the
status fixed by the Code alone: 400, 401, 403, 404, 409, 408, 429 for the codes
of the seven listed families and 500 for every other integer. -/
theorem httpStatus_total_by_code (e : AppError) :
    (e.Code ∈ [ErrCodeBadRequest, ErrCodeValidation, ErrCodeInvalidDocumentFormat,
        ErrCodeDocumentSizeExceeded] → e.HTTPStatus = 400) ∧
    (e.Code ∈ [ErrCodeUnauthorized, ErrCodeInvalidCredentials, ErrCodeTokenExpired,
        ErrCodeTokenInvalid] → e.HTTPStatus = 401) ∧
    (e.Code ∈ [ErrCodeForbidden, ErrCodeDocumentAccessDenied, ErrCodeWorkspaceAccessDenied] →
        e.HTTPStatus = 403) ∧
    (e.Code ∈ [ErrCodeNotFound, ErrCodeUserNotFound, ErrCodeDocumentNotFound,
        ErrCodeWorkspaceNotFound, ErrCodeSessionNotFound] → e.HTTPStatus = 404) ∧
    (e.Code ∈ [ErrCodeConflict, ErrCodeUserAlreadyExists, ErrCodeDocumentLocked,
        ErrCodeOperationConflict, ErrCodeConcurrentEdit] → e.HTTPStatus = 409) ∧
    (e.Code = ErrCodeTimeout → e.HTTPStatus = 408) ∧
    (e.Code = ErrCodeRateLimit → e.HTTPStatus = 429) ∧
    (e.Code ∉ [ErrCodeBadRequest, ErrCodeValidation, ErrCodeInvalidDocumentFormat,
        ErrCodeDocumentSizeExceeded, ErrCodeUnauthorized, ErrCodeInvalidCredentials,
        ErrCodeTokenExpired, ErrCodeTokenInvalid, ErrCodeForbidden, ErrCodeDocumentAccessDenied,
        ErrCodeWorkspaceAccessDenied, ErrCodeNotFound, ErrCodeUserNotFound,
        ErrCodeDocumentNotFound, ErrCodeWorkspaceNotFound, ErrCodeSessionNotFound,
        ErrCodeConflict, ErrCodeUserAlreadyExists, ErrCodeDocumentLocked,
        ErrCodeOperationConflict, ErrCodeConcurrentEdit, ErrCodeTimeout, ErrCodeRateLimit] →
        e.HTTPStatus = 500) ∧
    (∀ e2 : AppError, e2.Code = e.Code → e2.HTTPStatus = e.HTTPStatus) := by
  refine ⟨?_, ?_, ?_, ?_, ?_, ?_, ?_, ?_, ?_⟩
  all_goals
    simp only [AppError.HTTPStatus, ErrCodeBadRequest, ErrCodeValidation,
      ErrCodeInvalidDocumentFormat, ErrCodeDocumentSizeExceeded, ErrCodeUnauthorized,
      ErrCodeInvalidCredentials, ErrCodeTokenExpired, ErrCodeTokenInvalid, ErrCodeForbidden,
      ErrCodeDocumentAccessDenied, ErrCodeWorkspaceAccessDenied, ErrCodeNotFound,
      ErrCodeUserNotFound, ErrCodeDocumentNotFound, ErrCodeWorkspaceNotFound,
      ErrCodeSessionNotFound, ErrCodeConflict, ErrCodeUserAlreadyExists, ErrCodeDocumentLocked,
      ErrCodeOperationConflict, ErrCodeConcurrentEdit, ErrCodeTimeout, ErrCodeRateLimit,
      StatusBadRequest, StatusUnauthorized, StatusForbidden, StatusNotFound,
      StatusRequestTimeout, StatusConflict, StatusTooManyRequests, StatusInternalServerError,
      List.mem_cons, List.mem_singleton, List.not_mem_nil, or_false, not_or]
  · intro h; rcases h with h | h | h | h <;> rw [h] <;> decide
  · intro h; rcases h with h | h | h | h <;> rw [h] <;> decide
  · intro h; rcases h with h | h | h <;> rw [h] <;> decide
  · intro h; rcases h with h | h | h | h | h <;> rw [h] <;> decide
  · intro h; rcases h with h | h | h | h | h <;> rw [h] <;> decide
  · intro h; rw [h]; decide
  · intro h; rw [h]; decide
  · intro h
    obtain ⟨h1, h2, h3, h4, h5, h6, h7, h8, h9, h10, h11, h12, h13, h14, h15, h16, h17, h18,
      h19, h20, h21, h22, h23⟩ := h
    simp only [h1, h2, h3, h4, h5, h6, h7, h8, h9, h10, h11, h12, h13, h14, h15, h16, h17, h18,
      h19, h20, h21, h22, h23, or_self, if_false]
  · intro e2 h; rw [h]

/-- C1 at the code of a validation error. -/
theorem httpStatus_total_by_code_witness :
    (New "" ErrCodeValidation "bad input").HTTPStatus = 400 :=
  (httpStatus_total_by_code (New "" ErrCodeValidation "bad input")).1 (by decide)

/-- C2: New(code, msg).Error() is "[" + decimal(code) + "] " + msg; for a cause
whose Error method returns a text, Wrap(cause, code, msg).Error() is
"[" + decimal(code) + "] " + msg + ": " + that text; every AppError renders in
the second form exactly when its Internal is non-nil and in the first form
otherwise; and the rendering does not depend on Details, StackTrace or Context. -/
theorem error_rendering :
    (∀ (stack : String) (code : ErrorCode) (msg : String),
        (New stack code msg).Error = "[" ++ formatD code ++ "] " ++ msg) ∧
    (∀ (stack : String) (cause : GoError) (code : ErrorCode) (msg text : String),
        cause.errorText = some text →
          (Wrap stack cause code msg).Error =
            "[" ++ formatD code ++ "] " ++ msg ++ ": " ++ text) ∧
    (∀ (stack : String) (cause : GoError) (code : ErrorCode) (msg : String),
        cause.isNil = false →
          (Wrap stack cause code msg).Error =
            "[" ++ formatD code ++ "] " ++ msg ++ ": " ++ formatV cause) ∧
    (∀ e : AppError, e.Internal.isNil = false →
        e.Error = "[" ++ formatD e.Code ++ "] " ++ e.Message ++ ": " ++ formatV e.Internal) ∧
    (∀ e : AppError, e.Internal.isNil = true →
        e.Error = "[" ++ formatD e.Code ++ "] " ++ e.Message) ∧
    (∀ (e : AppError) (details trace : String) (context : Option ContextMap),
        ({ e with Details := details, StackTrace := trace, Context := context } : AppError).Error =
          e.Error) ∧
    (New "" ErrCodeNotFound "missing").Error = "[1004] missing" ∧
    (Wrap "" (GoErrorOf.other "EOF") (-7) "read failed").Error = "[-7] read failed: EOF" := by
  refine ⟨?_, ?_, ?_, ?_, ?_, ?_, by decide, by decide⟩
  · intro stack code msg
    rw [error_unfold]
    rfl
  · intro stack cause code msg text h
    rw [error_unfold]
    cases cause with
    | nil => simp [GoErrorOf.errorText] at h
    | appError p =>
      cases p with
      | none => simp [GoErrorOf.errorText] at h
      | some a =>
        simp only [GoErrorOf.errorText, Option.some.injEq] at h
        simp [Wrap, GoErrorOf.isNil, formatV, h]
    | other t =>
      simp only [GoErrorOf.errorText, Option.some.injEq] at h
      simp [Wrap, GoErrorOf.isNil, formatV, h]
  · intro stack cause code msg h
    rw [error_unfold]
    simp [Wrap, h]
  · intro e h
    rw [error_unfold]
    simp [h]
  · intro e h
    rw [error_unfold]
    simp [h]
  · intro e details trace context
    rw [error_unfold, error_unfold]

/-- C2 at a concrete cause: wrapping the opaque error "EOF". -/
theorem error_rendering_witness :
    (GoErrorOf.other "EOF" : GoError).errorText = some "EOF" ∧
    (Wrap "" (GoErrorOf.other "EOF") ErrCodeInternal "query failed").Error =
      "[" ++ formatD ErrCodeInternal ++ "] " ++ "query failed" ++ ": " ++ "EOF" :=
  ⟨rfl, error_rendering.2.1 "" (GoErrorOf.other "EOF") ErrCodeInternal "query failed" "EOF" rfl⟩

/-- C3: after e.WithContext(k, v) the context maps k to v and every other key
to what it held before; a second call with the same key leaves a single entry
for k, holding the second value, and the same number of entries as after the
first call; calls with two different keys leave both entries. -/
theorem withContext_overwrites_and_accumulates (e : AppError) (k k2 : String)
    (v v2 : AnyValue) :
    ((e.WithContext k v).contextLookup k = some v ∧
      ∀ j : String, j ≠ k → (e.WithContext k v).contextLookup j = e.contextLookup j) ∧
    (((e.WithContext k v).WithContext k v2).contextLookup k = some v2 ∧
      ((e.WithContext k v).WithContext k v2).contextKeys.count k = 1 ∧
      ((e.WithContext k v).WithContext k v2).contextLen = (e.WithContext k v).contextLen ∧
      ∀ j : String, j ≠ k →
        ((e.WithContext k v).WithContext k v2).contextLookup j = e.contextLookup j) ∧
    (k ≠ k2 →
      ((e.WithContext k v).WithContext k2 v2).contextLookup k = some v ∧
      ((e.WithContext k v).WithContext k2 v2).contextLookup k2 = some v2) := by
  refine ⟨⟨?_, ?_⟩, ⟨?_, ?_, ?_, ?_⟩, ?_⟩
  · rw [contextLookup_withContext, if_pos rfl]
  · intro j hj
    rw [contextLookup_withContext, if_neg hj]
  · rw [contextLookup_withContext, if_pos rfl]
  · apply List.count_eq_one_of_mem (contextKeys_nodup _)
    rw [contextKeys_withContext]
    exact List.mem_cons_self _ _
  · have h := withContext_twice_context e k v v2
    unfold AppError.contextLen
    rw [h, withContext_context, withContext_context]
    simp [AList.insert_entries]
  · intro j hj
    rw [contextLookup_withContext, if_neg hj, contextLookup_withContext, if_neg hj]
  · intro hne
    refine ⟨?_, ?_⟩
    · rw [contextLookup_withContext, if_neg hne, contextLookup_withContext, if_pos rfl]
    · rw [contextLookup_withContext, if_pos rfl]

/-- C3 at two different keys on an error without a context. -/
theorem withContext_overwrites_and_accumulates_witness :
    (((New "" ErrCodeValidation "bad").WithContext "field" (AnyValue.str "email")).WithContext
        "value" (AnyValue.int 3)).contextLookup "field" = some (AnyValue.str "email") ∧
    (((New "" ErrCodeValidation "bad").WithContext "field" (AnyValue.str "email")).WithContext
        "value" (AnyValue.int 3)).contextLookup "value" = some (AnyValue.int 3) :=
  (withContext_overwrites_and_accumulates (New "" ErrCodeValidation "bad") "field" "value"
    (AnyValue.str "email") (AnyValue.int 3)).2.2 (by decide)

/-- C4: HasCode(err, c) is true exactly when err is an AppError whose Code is c;
it is false for the nil error, for every error of another type, and for every
AppError whose Code differs from c. -/
theorem hasCode_true_iff (err : GoError) (c : ErrorCode) :
    (HasCode err c = some true ↔
      ∃ a : AppError, err = GoErrorOf.appError (some a) ∧ a.Code = c) ∧
    HasCode GoErrorOf.nil c = some false ∧
    (∀ text : String, HasCode (GoErrorOf.other text) c = some false) ∧
    (∀ a : AppError, a.Code ≠ c → HasCode (GoErrorOf.appError (some a)) c = some false) := by
  refine ⟨?_, rfl, fun _ => rfl, ?_⟩
  · constructor
    · intro h
      cases err with
      | nil => simp [HasCode, GetAppError, assertAppError] at h
      | appError p =>
        cases p with
        | none => simp [HasCode, GetAppError, assertAppError] at h
        | some a =>
          refine ⟨a, rfl, ?_⟩
          simpa [HasCode, GetAppError, assertAppError] using h
      | other t => simp [HasCode, GetAppError, assertAppError] at h
    · rintro ⟨a, rfl, hc⟩
      simp [HasCode, GetAppError, assertAppError, hc]
  · intro a hne
    simp [HasCode, GetAppError, assertAppError, hne]

/-- C4 at an AppError whose Code differs from the queried one. -/
theorem hasCode_true_iff_witness :
    HasCode (GoErrorOf.appError (some (New "" ErrCodeNotFound "missing"))) ErrCodeValidation =
      some false :=
  (hasCode_true_iff GoErrorOf.nil ErrCodeValidation).2.2.2 (New "" ErrCodeNotFound "missing")
    (by decide)

/-- C5: GetAppError of an error holding a pointer to an AppError reports success
and returns that very pointer; for the nil error and for an error of another
type it reports failure and returns no AppError; IsAppError agrees with the
success flag of GetAppError. -/
theorem getAppError_classifies :
    (∀ a : AppError, GetAppError (GoErrorOf.appError (some a)) = (some a, true)) ∧
    (∀ p : Option AppError, GetAppError (GoErrorOf.appError p) = (p, true)) ∧
    GetAppError GoErrorOf.nil = (none, false) ∧
    (∀ text : String, GetAppError (GoErrorOf.other text) = (none, false)) ∧
    (∀ err : GoError, IsAppError err = (GetAppError err).2) ∧
    (∀ err : GoError, IsAppError err = true ↔ ∃ p, err = GoErrorOf.appError p) := by
  refine ⟨fun _ => rfl, fun _ => rfl, rfl, fun _ => rfl, fun _ => rfl, ?_⟩
  intro err
  cases err with
  | nil => simp [IsAppError, assertAppError]
  | appError p => simp [IsAppError, assertAppError]
  | other t => simp [IsAppError, assertAppError]

/-- The one value outside the cases of C4: a nil pointer held in the interface,
where HasCode reads a field through the nil pointer. -/
theorem hasCode_nil_pointer (c : ErrorCode) : HasCode (GoErrorOf.appError none) c = none := rfl

/-- C6: the 26 defined codes, with the values the const block assigns through
iota, are pairwise distinct, and each lies in the band of its domain: 9 general
codes in 1000..1999, 5 authentication codes in 2000..2999, 5 document codes in
3000..3999, 4 workspace codes in 4000..4999, 3 collaboration codes in
5000..5999. -/
theorem errorCodes_distinct_and_banded :
    definedCodes = evalConstBlock errorCodeBlock 0 0 ∧
    definedCodes.length = 26 ∧
    definedCodes.Nodup ∧
    (generalCodes.length = 9 ∧ ∀ c ∈ generalCodes, 1000 ≤ c ∧ c ≤ 1999) ∧
    (authenticationCodes.length = 5 ∧ ∀ c ∈ authenticationCodes, 2000 ≤ c ∧ c ≤ 2999) ∧
    (documentCodes.length = 5 ∧ ∀ c ∈ documentCodes, 3000 ≤ c ∧ c ≤ 3999) ∧
    (workspaceCodes.length = 4 ∧ ∀ c ∈ workspaceCodes, 4000 ≤ c ∧ c ≤ 4999) ∧
    (collaborationCodes.length = 3 ∧ ∀ c ∈ collaborationCodes, 5000 ≤ c ∧ c ≤ 5999) := by
  decide

/-- C7: New stores its code and message with no cause, empty Details and no
Context; Wrap stores the same with Internal set to the cause (so a wrapped
ErrCodeInternal has status 500); each category constructor, Internal and each
zero-argument domain constructor agrees with New or Wrap on its fixed code and
message in every field but StackTrace; WorkspaceAccessDenied has status 403. -/
theorem constructors_store_arguments (stack stack2 : String) (code : ErrorCode) (msg : String)
    (cause : GoError) :
    ((New stack code msg).Code = code ∧ (New stack code msg).Message = msg ∧
      (New stack code msg).Internal = GoErrorOf.nil ∧ (New stack code msg).Details = "" ∧
      (New stack code msg).Context = none) ∧
    ((Wrap stack cause code msg).Code = code ∧ (Wrap stack cause code msg).Message = msg ∧
      (Wrap stack cause code msg).Internal = cause ∧ (Wrap stack cause code msg).Details = "" ∧
      (Wrap stack cause code msg).Context = none) ∧
    ((Wrap stack cause ErrCodeInternal "query failed").Internal = cause ∧
      (Wrap stack cause ErrCodeInternal "query failed").HTTPStatus = 500) ∧
    ((BadRequest stack msg).sameUpToStackTrace (New stack2 ErrCodeBadRequest msg) ∧
      (Unauthorized stack msg).sameUpToStackTrace (New stack2 ErrCodeUnauthorized msg) ∧
      (Forbidden stack msg).sameUpToStackTrace (New stack2 ErrCodeForbidden msg) ∧
      (NotFound stack msg).sameUpToStackTrace (New stack2 ErrCodeNotFound msg) ∧
      (Conflict stack msg).sameUpToStackTrace (New stack2 ErrCodeConflict msg) ∧
      (Validation stack msg).sameUpToStackTrace (New stack2 ErrCodeValidation msg)) ∧
    (Internal stack cause msg).sameUpToStackTrace (Wrap stack2 cause ErrCodeInternal msg) ∧
    ((InvalidCredentials stack).sameUpToStackTrace
        (New stack2 ErrCodeInvalidCredentials "Invalid credentials provided") ∧
      (TokenExpired stack).sameUpToStackTrace (New stack2 ErrCodeTokenExpired "Token has expired") ∧
      (TokenInvalid stack).sameUpToStackTrace
        (New stack2 ErrCodeTokenInvalid "Invalid token provided") ∧
      (UserNotFound stack).sameUpToStackTrace (New stack2 ErrCodeUserNotFound "User not found") ∧
      (UserAlreadyExists stack).sameUpToStackTrace
        (New stack2 ErrCodeUserAlreadyExists "User already exists") ∧
      (DocumentNotFound stack).sameUpToStackTrace
        (New stack2 ErrCodeDocumentNotFound "Document not found") ∧
      (DocumentAccessDenied stack).sameUpToStackTrace
        (New stack2 ErrCodeDocumentAccessDenied "Access denied to document") ∧
      (DocumentLocked stack).sameUpToStackTrace
        (New stack2 ErrCodeDocumentLocked "Document is locked for editing") ∧
      (WorkspaceNotFound stack).sameUpToStackTrace
        (New stack2 ErrCodeWorkspaceNotFound "Workspace not found") ∧
      (WorkspaceAccessDenied stack).sameUpToStackTrace
        (New stack2 ErrCodeWorkspaceAccessDenied "Access denied to workspace")) ∧
    ((WorkspaceAccessDenied stack).Code = ErrCodeWorkspaceAccessDenied ∧
      (WorkspaceAccessDenied stack).Message = "Access denied to workspace" ∧
      (WorkspaceAccessDenied stack).HTTPStatus = 403) := by
  refine ⟨⟨rfl, rfl, rfl, rfl, rfl⟩, ⟨rfl, rfl, rfl, rfl, rfl⟩, ⟨rfl, rfl⟩,
    ⟨?_, ?_, ?_, ?_, ?_, ?_⟩, ?_, ⟨?_, ?_, ?_, ?_, ?_, ?_, ?_, ?_, ?_, ?_⟩, ⟨rfl, rfl, rfl⟩⟩
  all_goals exact ⟨rfl, rfl, rfl, rfl, rfl⟩

/-- C8: the error simulateOperation returns has Code ErrCodeValidation, Message
"Invalid request format", status 400, Details "Email format is not valid", no
wrapped cause, and a Context of exactly the two entries "field" -> "email" and
"value" -> "invalid-email"; GetAppError recognises it. -/
theorem simulateOperation_error (stack : String) :
    ∃ e : AppError, GetAppError (simulateOperation stack) = (some e, true) ∧
      e.Code = ErrCodeValidation ∧ e.Message = "Invalid request format" ∧
      e.HTTPStatus = 400 ∧ e.Details = "Email format is not valid" ∧
      e.Internal = GoErrorOf.nil ∧
      e.contextLen = 2 ∧
      (∀ key : String, e.contextLookup key =
        if key = "value" then some (AnyValue.str "invalid-email")
        else if key = "field" then some (AnyValue.str "email")
        else none) ∧
      e.contextLookup "field" = some (AnyValue.str "email") ∧
      e.contextLookup "value" = some (AnyValue.str "invalid-email") := by
  have hctx : ∀ key : String,
      ((((Validation stack "Invalid request format").WithContext "field"
        (AnyValue.str "email")).WithContext "value"
        (AnyValue.str "invalid-email")).WithDetails "Email format is not valid").contextLookup key =
        if key = "value" then some (AnyValue.str "invalid-email")
        else if key = "field" then some (AnyValue.str "email")
        else none := by
    intro key
    have hd : ∀ (e : AppError) (t : String), (e.WithDetails t).contextLookup key =
        e.contextLookup key := fun _ _ => rfl
    rw [hd, contextLookup_withContext, contextLookup_withContext]
    rfl
  refine ⟨_, rfl, rfl, rfl, rfl, rfl, rfl, rfl, hctx, ?_, ?_⟩
  · rw [hctx]
    decide
  · rw [hctx]
    decide

set_option maxRecDepth 100000

/-- C9 fails on the code: on the stack text of simulateOperation the line filter
keeps both lines of the frames of getStackTrace, New and Validation, whose
source file is errors.go, and the result starts with the function line of
getStackTrace, not with a line of the call site. -/
theorem filterLines_keeps_helper_frames :
    filterLines (stackLines sampleHeader sampleFrames) =
      [ "github.com/tienhung-ho/smart-document/common/errors.getStackTrace()",
        "\t/src/smart-document/common/errors/errors.go:120 +0x5b",
        "github.com/tienhung-ho/smart-document/common/errors.New(...)",
        "\t/src/smart-document/common/errors/errors.go:104",
        "github.com/tienhung-ho/smart-document/common/errors.Validation(...)",
        "\t/src/smart-document/common/errors/errors.go:167",
        "\t/src/smart-document/apps/gateway/main.go:60 +0x25",
        "main.main()",
        "\t/src/smart-document/apps/gateway/main.go:39 +0x1a5" ] ∧
    stringsSplit sampleStack = stackLines sampleHeader sampleFrames ++ [""] ∧
    getStackTrace sampleStack =
      stringsJoin
        [ "github.com/tienhung-ho/smart-document/common/errors.getStackTrace()",
          "\t/src/smart-document/common/errors/errors.go:120 +0x5b",
          "github.com/tienhung-ho/smart-document/common/errors.New(...)",
          "\t/src/smart-document/common/errors/errors.go:104",
          "github.com/tienhung-ho/smart-document/common/errors.Validation(...)",
          "\t/src/smart-document/common/errors/errors.go:167",
          "\t/src/smart-document/apps/gateway/main.go:60 +0x25",
          "main.main()",
          "\t/src/smart-document/apps/gateway/main.go:39 +0x1a5",
          "" ] ∧
    (sampleFrames.filter Frame.inErrorsGo).map Frame.functionLine =
      [ "github.com/tienhung-ho/smart-document/common/errors.getStackTrace()",
        "github.com/tienhung-ho/smart-document/common/errors.New(...)",
        "github.com/tienhung-ho/smart-document/common/errors.Validation(...)" ] ∧
    ¬ dropsHelperFrames sampleHeader sampleFrames := by
  have h1 : filterLines (stackLines sampleHeader sampleFrames) =
      [ "github.com/tienhung-ho/smart-document/common/errors.getStackTrace()",
        "\t/src/smart-document/common/errors/errors.go:120 +0x5b",
        "github.com/tienhung-ho/smart-document/common/errors.New(...)",
        "\t/src/smart-document/common/errors/errors.go:104",
        "github.com/tienhung-ho/smart-document/common/errors.Validation(...)",
        "\t/src/smart-document/common/errors/errors.go:167",
        "\t/src/smart-document/apps/gateway/main.go:60 +0x25",
        "main.main()",
        "\t/src/smart-document/apps/gateway/main.go:39 +0x1a5" ] := by decide
  refine ⟨h1, by decide, by decide, by decide, ?_⟩
  intro h
  have hf := h
    { functionLine := "github.com/tienhung-ho/smart-document/common/errors.New(...)"
      positionLine := "\t/src/smart-document/common/errors/errors.go:104" }
    (by simp [sampleFrames]) (by decide)
  rw [h1] at hf
  exact hf.1 (by simp)

/-- C10: WithDetails sets Details to its argument, whatever it was, and leaves
Code, Message, Internal, StackTrace and Context as they were; WithContext leaves
Code, Message, Details, Internal and StackTrace as they were; so after any chain
of enrichment calls Code, Message and Internal are those of construction. -/
theorem enrichment_changes_only_its_field (e : AppError) (k : String) (v : AnyValue)
    (t t2 : String) (calls : List Enrichment) :
    ((e.WithDetails t).Details = t ∧ (e.WithDetails t).Code = e.Code ∧
      (e.WithDetails t).Message = e.Message ∧ (e.WithDetails t).Internal = e.Internal ∧
      (e.WithDetails t).StackTrace = e.StackTrace ∧ (e.WithDetails t).Context = e.Context) ∧
    ((e.WithDetails t).WithDetails t2 = e.WithDetails t2) ∧
    ((e.WithContext k v).Code = e.Code ∧ (e.WithContext k v).Message = e.Message ∧
      (e.WithContext k v).Details = e.Details ∧ (e.WithContext k v).Internal = e.Internal ∧
      (e.WithContext k v).StackTrace = e.StackTrace) ∧
    ((enrich e calls).Code = e.Code ∧ (enrich e calls).Message = e.Message ∧
      (enrich e calls).Internal = e.Internal) := by
  refine ⟨⟨rfl, rfl, rfl, rfl, rfl, rfl⟩, rfl, ⟨rfl, rfl, rfl, rfl, rfl⟩, ?_⟩
  have h := enrich_fields calls e
  exact ⟨h.1, h.2.1, h.2.2.1⟩

/-! ## Lemmas on the configuration loader -/

theorem lookup_mem {β : Type} (l : List (String × β)) (k : String) (b : β)
    (h : l.lookup k = some b) : (k, b) ∈ l := by
  induction l with
  | nil => simp at h
  | cons hd tl ih =>
    obtain ⟨k2, b2⟩ := hd
    by_cases hk : k = k2
    · subst hk
      simp [List.lookup] at h
      subst h
      exact List.mem_cons_self _ _
    · have hne : (k == k2) = false := by simpa using hk
      simp only [List.lookup, hne] at h
      exact List.mem_cons_of_mem _ (ih h)

theorem unmarshal_ok (rt : Runtime) (decode : Decoder) (v : Viper) (into cfg : Config)
    (h : v.Unmarshal rt decode into = Except.ok cfg) (key : String) (kind : FieldKind)
    (hf : configFields.lookup key = some kind) :
    cfg key = (match v.setting rt key with
      | none => into key
      | some raw => decode kind (into key) raw) ∧
    ∀ raw, v.setting rt key = some raw → (decode kind (into key) raw).isSome = true := by
  unfold Viper.Unmarshal at h
  split at h
  · cases h
  · split at h
    · next hall =>
      injection h with h
      subst h
      constructor
      · simp only [hf]
      · intro raw hraw
        have hmem := lookup_mem _ _ _ hf
        have := (List.all_eq_true.mp hall) (key, kind) hmem
        simpa [hraw] using this
    · cases h

theorem field_key_has_default (key : String) (kind : FieldKind)
    (hf : configFields.lookup key = some kind) :
    key ∈ (setDefaults Viper.New).defaults.map Prod.fst := by
  have hall : ∀ f ∈ configFields, f.1 ∈ (setDefaults Viper.New).defaults.map Prod.fst := by
    decide
  exact hall _ (lookup_mem _ _ _ hf)

theorem field_default_defined (key : String) (kind : FieldKind)
    (hf : configFields.lookup key = some kind) : ∃ raw, defaultsLayer key = some raw := by
  have hall : ∀ f ∈ configFields, (defaultsLayer f.1).isSome = true := by decide
  exact Option.isSome_iff_exists.mp (hall _ (lookup_mem _ _ _ hf))

theorem trimSuffix_append (a b : String) : stringsTrimSuffix (a ++ b) b = a := by
  unfold stringsTrimSuffix
  have hsuf : b.data.isSuffixOf (a ++ b).data = true := by
    rw [String.data_append, List.isSuffixOf_iff_suffix]
    exact List.suffix_append _ _
  rw [if_pos hsuf, String.data_append, List.length_append, Nat.add_sub_cancel,
    List.take_left']
  rfl

theorem searchSettings_of_lookup (s : Settings) (key : String) (raw : Setting)
    (h : s.lookup key = some raw) : searchSettings s key = some raw := by
  unfold searchSettings
  rw [h]

theorem fits_not_shadowed (s : Settings) (key : String) (kind : FieldKind)
    (hfit : fitsSchema s = true) (hf : configFields.lookup key = some kind) :
    shadowedInSettings s key = false := by
  unfold shadowedInSettings
  rw [List.any_eq_false]
  intro parent hparent
  cases hl : s.lookup parent with
  | none => simp
  | some val =>
    exfalso
    have hmem := lookup_mem _ _ _ hl
    have h1 := (List.all_eq_true.mp hfit) (parent, val) hmem
    have h2 := (List.all_eq_true.mp h1) (key, kind) (lookup_mem _ _ _ hf)
    simp only [Bool.and_eq_true, Bool.not_eq_true', decide_eq_false_iff_not] at h2
    exact h2.1 hparent

theorem fits_search (s : Settings) (key : String) (kind : FieldKind)
    (hfit : fitsSchema s = true) (hf : configFields.lookup key = some kind) :
    searchSettings s key = s.lookup key := by
  unfold searchSettings
  cases hl : s.lookup key with
  | some val => rfl
  | none =>
    have hany : s.any (fun entry => decide (key ∈ parentKeys entry.1)) = false := by
      rw [List.any_eq_false]
      intro entry hentry
      have h1 := (List.all_eq_true.mp hfit) entry hentry
      have h2 := (List.all_eq_true.mp h1) (key, kind) (lookup_mem _ _ _ hf)
      simp only [Bool.and_eq_true, Bool.not_eq_true', decide_eq_false_iff_not] at h2
      simpa using h2.2
    simp only [hany]
    rfl

theorem parentKeys_of_not_nested (key : String)
    (h : decide (1 < (keyPath key).length) = false) : parentKeys key = [] := by
  unfold parentKeys
  have hlen : (keyPath key).length - 1 = 0 := by
    have := of_decide_eq_false h
    omega
  rw [hlen]
  rfl

theorem nested_and_any (key : String) (P : String → Bool) :
    (decide (1 < (keyPath key).length) && (parentKeys key).any P) = (parentKeys key).any P := by
  cases hn : decide (1 < (keyPath key).length) with
  | true => simp
  | false =>
    rw [parentKeys_of_not_nested key hn]
    rfl

theorem getEnv_eq (rt : Runtime) (v : Viper) (key : String) (hpre : v.envPrefix = "SD")
    (hrep : v.envKeyReplacer = some ('.', '_')) :
    v.getEnv rt (v.mergeWithEnvPrefix key) = envVarValue rt key := by
  have hsd : ("SD" : String) ++ "_" = "SD_" := by decide
  have hne : ("SD" : String) ≠ "" := by decide
  unfold Viper.getEnv Viper.mergeWithEnvPrefix envVarValue envVarName
  rw [hpre, hrep, if_pos hne, hsd]

theorem autoEnv_shadow_eq (rt : Runtime) (v : Viper) (key : String)
    (hpre : v.envPrefix = "SD") (hrep : v.envKeyReplacer = some ('.', '_')) :
    v.isPathShadowedInAutoEnv rt key = envShadowed rt key := by
  unfold Viper.isPathShadowedInAutoEnv envShadowed envVarLayer
  congr 1
  funext parent
  rw [getEnv_eq rt v parent hpre hrep]
  cases envVarValue rt parent <;> rfl

theorem firstDefined_single (x : Option Setting) : firstDefined [x] = x := by
  cases x <;> rfl

theorem nested_and_envShadowed (rt : Runtime) (key : String) :
    (decide (1 < (keyPath key).length) && envShadowed rt key) = envShadowed rt key := by
  unfold envShadowed
  exact nested_and_any key _

theorem find_main (rt : Runtime) (v : Viper) (key : String) (kind : FieldKind)
    (hauto : v.automaticEnvApplied = true) (hpre : v.envPrefix = "SD")
    (hrep : v.envKeyReplacer = some ('.', '_'))
    (hdef : v.defaults = (setDefaults Viper.New).defaults)
    (hfit : fitsSchema v.config = true) (hf : configFields.lookup key = some kind) :
    v.find rt key =
      firstDefined
        [envVarLayer rt key,
         if envShadowed rt key then none
         else firstDefined [v.config.lookup key, defaultsLayer key]] := by
  obtain ⟨d, hd⟩ := field_default_defined key kind hf
  have hd2 : List.lookup key (setDefaults Viper.New).defaults = some d := hd
  unfold Viper.find
  simp only [hauto, if_true, Bool.true_and, getEnv_eq rt v key hpre hrep, nested_and_envShadowed,
    autoEnv_shadow_eq rt v key hpre hrep, fits_search v.config key kind hfit hf,
    fits_not_shadowed v.config key kind hfit hf, hdef,
    searchSettings_of_lookup _ key d hd2]
  unfold envVarLayer
  cases henv : envVarValue rt key with
  | some val => rfl
  | none =>
    cases hsh : envShadowed rt key with
    | true => simp [firstDefined]
    | false =>
      cases hc : List.lookup key v.config with
      | some val => simp [firstDefined]
      | none => simp [firstDefined, hd]

theorem setting_main (rt : Runtime) (v : Viper) (key : String) (kind : FieldKind)
    (hdef : v.defaults = (setDefaults Viper.New).defaults)
    (hfit : fitsSchema v.config = true) (hf : configFields.lookup key = some kind) :
    v.setting rt key = v.find rt key := by
  unfold Viper.setting
  have hmem : key ∈ v.AllKeys := by
    unfold Viper.AllKeys
    rw [hdef]
    apply List.mem_append_right
    rw [List.mem_filter]
    refine ⟨field_key_has_default key kind hf, ?_⟩
    rw [fits_not_shadowed v.config key kind hfit hf]
    rfl
  rw [if_pos hmem]

theorem setting_file_only (rt : Runtime) (v : Viper) (key : String) (kind : FieldKind)
    (hauto : v.automaticEnvApplied = false) (hdef : v.defaults = [])
    (hfit : fitsSchema v.config = true) (hf : configFields.lookup key = some kind) :
    v.setting rt key = v.config.lookup key := by
  have hfind : v.find rt key = v.config.lookup key := by
    unfold Viper.find
    simp only [hauto, Bool.false_and, Bool.false_eq_true, if_false,
      fits_search v.config key kind hfit hf,
      fits_not_shadowed v.config key kind hfit hf, hdef, Bool.and_false]
    cases hc : List.lookup key v.config with
    | some val => rfl
    | none => rfl
  unfold Viper.setting
  cases hc : v.config.lookup key with
  | none =>
    rw [hfind, hc]
    simp
  | some raw =>
    have hmem : key ∈ v.AllKeys := by
      unfold Viper.AllKeys
      exact List.mem_append_left _ (List.mem_map_of_mem Prod.fst (lookup_mem _ _ _ hc))
    rw [if_pos hmem, hfind, hc]

theorem configuredViper_eq (configPath serviceName : String) :
    configuredViper configPath serviceName =
      { defaults := (setDefaults Viper.New).defaults
        config := []
        configName := serviceName
        configType := "yaml"
        configPaths := serviceSearchPath configPath
        automaticEnvApplied := true
        envPrefix := "SD"
        envKeyReplacer := some ('.', '_') } := by
  by_cases h : configPath = ""
  · subst h
    rfl
  · have hadd : ∀ v : Viper, v.AddConfigPath configPath =
        { v with configPaths := v.configPaths ++ [configPath] } := by
      intro v
      unfold Viper.AddConfigPath
      rw [if_pos h]
    unfold configuredViper serviceSearchPath
    simp only [hadd, if_pos h]
    rfl

theorem readServiceConfig_ok (rt : Runtime) (configPath serviceName : String) (v : Viper)
    (h : readServiceConfig rt configPath serviceName = Except.ok v) :
    v.defaults = (setDefaults Viper.New).defaults ∧ v.automaticEnvApplied = true ∧
      v.envPrefix = "SD" ∧ v.envKeyReplacer = some ('.', '_') ∧
      (∀ key, v.config.lookup key = serviceFileLayer rt configPath serviceName key) ∧
      (fileFits (serviceFile rt configPath serviceName) = true → fitsSchema v.config = true) := by
  unfold readServiceConfig Viper.ReadInConfig at h
  simp only [configuredViper_eq] at h
  unfold serviceFileLayer
  have hsf : serviceFile rt configPath serviceName =
      searchConfigPaths rt serviceName (serviceSearchPath configPath) := rfl
  rw [hsf]
  cases hs : searchConfigPaths rt serviceName (serviceSearchPath configPath) with
  | notFound =>
    rw [hs] at h
    simp only at h
    injection h with h
    subst h
    exact ⟨rfl, rfl, rfl, rfl, fun _ => rfl, fun _ => rfl⟩
  | malformed cause =>
    rw [hs] at h
    simp only at h
    cases h
  | parsed settings =>
    rw [hs] at h
    simp only at h
    injection h with h
    subst h
    exact ⟨rfl, rfl, rfl, rfl, fun _ => rfl, fun hfit => hfit⟩

theorem loadEnvironmentSpecific_ok (rt : Runtime) (decode : Decoder) (v : Viper)
    (config cfg : Config) (h : loadEnvironmentSpecific rt decode v config = Except.ok cfg)
    (hfit : fileFits (searchConfigPaths rt ("config-" ++ v.GetString rt "environment")
        ["./etc", "../etc", "../../etc"]) = true)
    (key : String) (kind : FieldKind) (hf : configFields.lookup key = some kind) :
    (∀ raw, (match searchConfigPaths rt ("config-" ++ v.GetString rt "environment")
          ["./etc", "../etc", "../../etc"] with
        | FileRead.parsed settings => settings.lookup key
        | _ => none) = some raw →
      cfg key = decode kind (config key) raw ∧ (decode kind (config key) raw).isSome = true) ∧
    ((match searchConfigPaths rt ("config-" ++ v.GetString rt "environment")
          ["./etc", "../etc", "../../etc"] with
        | FileRead.parsed settings => settings.lookup key
        | _ => none) = none → cfg key = config key) := by
  unfold loadEnvironmentSpecific Viper.ReadInConfig at h
  simp only [trimSuffix_append] at h
  have hname : ∀ n : String, ((((Viper.New.SetConfigName n).SetConfigType "yaml").AddConfigPath
      "./etc").AddConfigPath "../etc").AddConfigPath "../../etc" =
      { Viper.New with configName := n, configType := "yaml",
                       configPaths := ["./etc", "../etc", "../../etc"] } := fun _ => rfl
  simp only [hname] at h
  cases hs : searchConfigPaths rt ("config-" ++ v.GetString rt "environment")
      ["./etc", "../etc", "../../etc"] with
  | notFound =>
    rw [hs] at h
    simp only at h
    injection h with h
    subst h
    exact ⟨fun raw hraw => by simp at hraw, fun _ => rfl⟩
  | malformed cause =>
    rw [hs] at h
    simp only at h
    cases h
  | parsed settings =>
    rw [hs] at h hfit
    simp only at h
    split at h
    · cases h
    · next c hu =>
      injection h with h
      subst h
      have hset := setting_file_only rt
        { Viper.New with configName := "config-" ++ v.GetString rt "environment",
                         configType := "yaml",
                         configPaths := ["./etc", "../etc", "../../etc"],
                         config := settings } key kind rfl rfl hfit hf
      have hu2 := unmarshal_ok rt decode _ config c hu key kind hf
      rw [hset] at hu2
      constructor
      · intro raw hraw
        have hraw2 : List.lookup key settings = some raw := hraw
        rw [hraw2] at hu2
        exact ⟨hu2.1, hu2.2 raw rfl⟩
      · intro hnone
        have hnone2 : List.lookup key settings = none := hnone
        rw [hnone2] at hu2
        exact hu2.1

theorem loadConfig_unfold (rt : Runtime) (decode : Decoder) (configPath serviceName : String) :
    LoadConfig rt decode configPath serviceName =
      match readServiceConfig rt configPath serviceName with
      | Except.error cause => Except.error cause
      | Except.ok v =>
        match v.Unmarshal rt decode zeroConfig with
        | Except.error cause => Except.error ("failed to unmarshal config: " ++ cause)
        | Except.ok config =>
          match loadEnvironmentSpecific rt decode v config with
          | Except.error cause =>
            Except.error ("failed to load environment-specific config: " ++ cause)
          | Except.ok config => Except.ok config := rfl

theorem loadConfig_value (rt : Runtime) (decode : Decoder) (configPath serviceName : String)
    (config : Config) (key : String) (kind : FieldKind)
    (hload : LoadConfig rt decode configPath serviceName = Except.ok config)
    (hfield : configFields.lookup key = some kind)
    (hfit : readFilesFit rt configPath serviceName = true) :
    config key = loadedValue decode rt configPath serviceName key kind ∧
      (config key).isSome = true := by
  unfold readFilesFit at hfit
  rw [Bool.and_eq_true] at hfit
  obtain ⟨hfitS, hfitE⟩ := hfit
  rw [loadConfig_unfold] at hload
  cases hr : readServiceConfig rt configPath serviceName with
  | error cause =>
    rw [hr] at hload
    cases hload
  | ok v =>
    rw [hr] at hload
    simp only at hload
    cases hu : v.Unmarshal rt decode zeroConfig with
    | error cause =>
      rw [hu] at hload
      cases hload
    | ok c1 =>
      rw [hu] at hload
      simp only at hload
      cases hl : loadEnvironmentSpecific rt decode v c1 with
      | error cause =>
        rw [hl] at hload
        cases hload
      | ok c2 =>
        rw [hl] at hload
        simp only at hload
        injection hload with hload
        subst hload
        obtain ⟨hdef, hauto, hpre, hrep, hcfg, hfitv⟩ :=
          readServiceConfig_ok rt configPath serviceName v hr
        have hfitc := hfitv hfitS
        have hfind : ∀ (k : String) (kd : FieldKind), configFields.lookup k = some kd →
            v.find rt k = lowerSetting rt configPath serviceName k := by
          intro k kd hk
          rw [find_main rt v k kd hauto hpre hrep hdef hfitc hk, hcfg]
          rfl
        have henvname : v.GetString rt "environment" =
            environmentName rt configPath serviceName := by
          unfold Viper.GetString environmentName
          rw [hfind "environment" FieldKind.string (by decide)]
        have hset : v.setting rt key = lowerSetting rt configPath serviceName key := by
          rw [setting_main rt v key kind hdef hfitc hfield, hfind key kind hfield]
        have hzero : zeroConfig key = some (zeroValue kind) := by
          unfold zeroConfig
          rw [hfield]
          rfl
        have h1 := unmarshal_ok rt decode v zeroConfig c1 hu key kind hfield
        rw [hset, hzero] at h1
        have hc1 : c1 key = lowerValue decode rt configPath serviceName key kind := by
          rw [h1.1]
          unfold lowerValue
          cases lowerSetting rt configPath serviceName key <;> rfl
        have hc1some : (c1 key).isSome = true := by
          cases hls : lowerSetting rt configPath serviceName key with
          | none =>
            rw [hc1]
            unfold lowerValue
            rw [hls]
            rfl
          | some raw =>
            rw [hc1]
            unfold lowerValue
            rw [hls]
            exact h1.2 raw hls
        unfold environmentFile at hfitE
        rw [← henvname] at hfitE
        have hfitE2 : fileFits (searchConfigPaths rt ("config-" ++ v.GetString rt "environment")
            ["./etc", "../etc", "../../etc"]) = true := hfitE
        have h2 := loadEnvironmentSpecific_ok rt decode v c1 c2 hl hfitE2 key kind hfield
        rw [henvname] at h2
        have hlayer : environmentFileLayer rt configPath serviceName key =
            (match searchConfigPaths rt ("config-" ++ environmentName rt configPath serviceName)
                ["./etc", "../etc", "../../etc"] with
              | FileRead.parsed settings => settings.lookup key
              | _ => none) := rfl
        rw [← hlayer] at h2
        unfold loadedValue
        cases hE : environmentFileLayer rt configPath serviceName key with
        | none =>
          rw [h2.2 hE]
          exact ⟨hc1, hc1some⟩
        | some raw =>
          obtain ⟨hv, hs⟩ := h2.1 raw hE
          rw [hc1] at hv hs
          rw [hv]
          exact ⟨rfl, hs⟩

/-- C11 (amended): for config files that fit the shape of Config, the value of
every configuration key in the Config LoadConfig returns comes from the
highest-precedence layer that defines the key, in the increasing order built-in
defaults, the service file, the SD_ environment variables, the file
config-<environment>.yaml: a key the environment file defines holds the value
of that file (decoded over the value of the lower layers), whatever the
environment variables say; otherwise the variable of the key; otherwise the
service file over the defaults, except that a key with a non-empty SD_ variable
on a parent path takes nothing from the service file or the defaults and is
left at its zero value. -/
theorem loadConfig_layer_precedence (rt : Runtime) (decode : Decoder)
    (configPath serviceName : String) (config : Config) (key : String) (kind : FieldKind)
    (hload : LoadConfig rt decode configPath serviceName = Except.ok config)
    (hfield : configFields.lookup key = some kind)
    (hfit : readFilesFit rt configPath serviceName = true) :
    (∀ raw, environmentFileLayer rt configPath serviceName key = some raw →
      config key = decode kind (lowerValue decode rt configPath serviceName key kind) raw) ∧
    (environmentFileLayer rt configPath serviceName key = none →
      (∀ raw, envVarLayer rt key = some raw →
        config key = decode kind (some (zeroValue kind)) raw) ∧
      (envVarLayer rt key = none → envShadowed rt key = false →
        ∃ raw, firstDefined [serviceFileLayer rt configPath serviceName key,
            defaultsLayer key] = some raw ∧
          config key = decode kind (some (zeroValue kind)) raw) ∧
      (envVarLayer rt key = none → envShadowed rt key = true →
        config key = some (zeroValue kind))) ∧
    (config key).isSome = true := by
  obtain ⟨hval, hsome⟩ :=
    loadConfig_value rt decode configPath serviceName config key kind hload hfield hfit
  refine ⟨?_, ?_, hsome⟩
  · intro raw hE
    rw [hval]
    unfold loadedValue
    rw [hE]
  · intro hE
    have hlow : config key = lowerValue decode rt configPath serviceName key kind := by
      rw [hval]
      unfold loadedValue
      rw [hE]
    refine ⟨?_, ?_, ?_⟩
    · intro raw hV
      rw [hlow]
      unfold lowerValue lowerSetting
      rw [hV]
      rfl
    · intro hV hS
      obtain ⟨d, hd⟩ := field_default_defined key kind hfield
      have hex : ∃ raw, firstDefined [serviceFileLayer rt configPath serviceName key,
          defaultsLayer key] = some raw := by
        rw [hd]
        cases serviceFileLayer rt configPath serviceName key <;> exact ⟨_, rfl⟩
      obtain ⟨raw, hraw⟩ := hex
      refine ⟨raw, hraw, ?_⟩
      rw [hlow]
      unfold lowerValue lowerSetting
      rw [hV, hS]
      simp only [Bool.false_eq_true, if_false, firstDefined, hraw]
    · intro hV hS
      rw [hlow]
      unfold lowerValue lowerSetting
      rw [hV, hS]
      rfl

/-- C11 (amended) on the sample run, at the key server.port, which the
environment file defines. -/
theorem loadConfig_layer_precedence_witness :
    (LoadConfig sampleRuntime sampleDecode "./etc" "gateway").isOk = true ∧
    configFields.lookup "server.port" = some FieldKind.int ∧
    readFilesFit sampleRuntime "./etc" "gateway" = true ∧
    environmentFileLayer sampleRuntime "./etc" "gateway" "server.port" =
      some (Setting.int 9090) ∧
    loadedField (LoadConfig sampleRuntime sampleDecode "./etc" "gateway") "server.port" =
      sampleDecode FieldKind.int
        (lowerValue sampleDecode sampleRuntime "./etc" "gateway" "server.port" FieldKind.int)
        (Setting.int 9090) := by
  have hok : (LoadConfig sampleRuntime sampleDecode "./etc" "gateway").isOk = true := by decide
  refine ⟨hok, by decide, by decide, by decide, ?_⟩
  cases h : LoadConfig sampleRuntime sampleDecode "./etc" "gateway" with
  | error cause =>
    rw [h] at hok
    cases hok
  | ok cfg =>
    exact (loadConfig_layer_precedence sampleRuntime sampleDecode "./etc" "gateway" cfg
      "server.port" FieldKind.int h (by decide) (by decide)).1 (Setting.int 9090) (by decide)

/-- C11 as stated fails on the sample run: the file config-development.yaml
sets server.port to 9090 and the variable SD_SERVER_PORT is 7070; LoadConfig
returns a Config whose server.port is 9090, the value of the file, not the
7070 of the environment variable. -/
theorem loadConfig_env_var_overridden :
    (LoadConfig sampleRuntime sampleDecode "./etc" "gateway").isOk = true ∧
    readFilesFit sampleRuntime "./etc" "gateway" = true ∧
    environmentName sampleRuntime "./etc" "gateway" = "development" ∧
    environmentFileLayer sampleRuntime "./etc" "gateway" "server.port" =
      some (Setting.int 9090) ∧
    envVarName "server.port" = "SD_SERVER_PORT" ∧
    envVarLayer sampleRuntime "server.port" = some (Setting.str "7070") ∧
    claimedSetting sampleRuntime "./etc" "gateway" "server.port" = some (Setting.str "7070") ∧
    sampleDecode FieldKind.int (some (Setting.int 0)) (Setting.str "7070") =
      some (Setting.int 7070) ∧
    loadedField (LoadConfig sampleRuntime sampleDecode "./etc" "gateway") "server.port" =
      some (Setting.int 9090) ∧
    loadedField (LoadConfig sampleRuntime sampleDecode "./etc" "gateway") "server.port" ≠
      (claimedSetting sampleRuntime "./etc" "gateway" "server.port").bind
        (sampleDecode FieldKind.int (some (Setting.int 0))) := by
  decide

/-- A variable on a parent path: with SD_SERVER and SD_SERVER_HOST set and no
config file, LoadConfig returns a Config whose server.host is the value of its
own variable, whose server.port is left at zero (the default 8080 is not
taken), and whose database.port is the default. -/
theorem loadConfig_parent_variable_shadows :
    (LoadConfig shadowRuntime sampleDecode "./etc" "gateway").isOk = true ∧
    envShadowed shadowRuntime "server.port" = true ∧
    defaultsLayer "server.port" = some (Setting.int 8080) ∧
    loadedField (LoadConfig shadowRuntime sampleDecode "./etc" "gateway") "server.port" =
      some (Setting.int 0) ∧
    loadedField (LoadConfig shadowRuntime sampleDecode "./etc" "gateway") "server.host" =
      some (Setting.str "10.0.0.1") ∧
    loadedField (LoadConfig shadowRuntime sampleDecode "./etc" "gateway") "database.port" =
      some (Setting.int 5432) := by
  decide

end SmartDocument
